import Mathlib

/-!
Shallow embedding of the service-request lifecycle subsystem of the
aquaHome backend (src/services/serviceRequests.service.ts), together with
the installation synchronizer, the action-history audit writes and the
payment-reconciliation path.  Databases are lists of rows; the drizzle
`update ... where` is `updateWhere`; `db.transaction` is modelled by
returning `Except Err DB` where an error means the whole transaction is
rolled back (the committed state is the input state).
-/

namespace AquaHome

/-- Service-request statuses.  Modelled from the spec: the `ServiceRequestStatus`
enum lives in `../types`, which is not under `src/`; the spec (§4.1) lists the
states CREATED, ASSIGNED, SCHEDULED, IN_PROGRESS, PAYMENT_PENDING, COMPLETED,
CANCELLED, whose string values are their names. -/
inductive SRStatus where
  | CREATED | ASSIGNED | SCHEDULED | IN_PROGRESS
  | PAYMENT_PENDING | COMPLETED | CANCELLED
deriving DecidableEq, Repr

/-- String value of a service-request status (the TS enum is string-valued). -/
def SRStatus.val : SRStatus → String
  | .CREATED => "CREATED"
  | .ASSIGNED => "ASSIGNED"
  | .SCHEDULED => "SCHEDULED"
  | .IN_PROGRESS => "IN_PROGRESS"
  | .PAYMENT_PENDING => "PAYMENT_PENDING"
  | .COMPLETED => "COMPLETED"
  | .CANCELLED => "CANCELLED"

/-- `status.toLowerCase()` as used when building action-type strings. -/
def SRStatus.lower : SRStatus → String
  | .CREATED => "created"
  | .ASSIGNED => "assigned"
  | .SCHEDULED => "scheduled"
  | .IN_PROGRESS => "in_progress"
  | .PAYMENT_PENDING => "payment_pending"
  | .COMPLETED => "completed"
  | .CANCELLED => "cancelled"

/-- Installation-request statuses.  Modelled from the spec: the
`InstallationRequestStatus` enum lives in `../types`, not under `src/`;
the names are those used by the service code. -/
inductive IRStatus where
  | SUBMITTED | INSTALLATION_SCHEDULED | INSTALLATION_IN_PROGRESS
  | PAYMENT_PENDING | INSTALLATION_COMPLETED | CANCELLED
deriving DecidableEq, Repr

def IRStatus.val : IRStatus → String
  | .SUBMITTED => "SUBMITTED"
  | .INSTALLATION_SCHEDULED => "INSTALLATION_SCHEDULED"
  | .INSTALLATION_IN_PROGRESS => "INSTALLATION_IN_PROGRESS"
  | .PAYMENT_PENDING => "PAYMENT_PENDING"
  | .INSTALLATION_COMPLETED => "INSTALLATION_COMPLETED"
  | .CANCELLED => "CANCELLED"

/-- Payment statuses (`PaymentStatus` in `../types`, modelled from the spec §3:
`pending|completed|failed|refunded`). -/
inductive PayStatus where
  | PENDING | COMPLETED | FAILED | REFUNDED
deriving DecidableEq, Repr

/-- Error kinds.  Modelled from the spec (§7): `utils/errors` is not under
`src/`; `notFound`/`badRequest`/`forbidden` build typed errors with a
human-readable message.  `jsError` models a raw JavaScript runtime error
(e.g. dereferencing a missing record), `serverError` an unexpected
persistence failure. -/
inductive Err where
  | notFound (entity : String)
  | badRequest (msg : String)
  | forbidden (msg : String)
  | serverError (msg : String)
  | jsError
deriving DecidableEq, Repr

/-- A service-request row.  Modelled from the spec (§3): the drizzle table
definition (`../models/schema`) is not under `src/`.  The payment flag is the
single column `require_payment` (see the raw SQL in
`products.service.ts`: `sr.require_payment as requirePayment`), which the spec
calls `requiresPayment`; the status machine reads it as
`serviceRequest.requirePayment`.  Image columns hold serialized JSON text or
null. -/
structure SRRow where
  id : String
  subscriptionId : Option String := none
  customerId : String := ""
  productId : String := ""
  installationRequestId : Option String := none
  type_ : String := "general"
  description : String := ""
  images : Option String := none
  status : SRStatus
  assignedToId : Option String := none
  franchiseId : Option String := none
  scheduledDate : Option String := none
  completedDate : Option String := none
  completedAt : Option String := none
  beforeImages : Option String := none
  afterImages : Option String := none
  requirePayment : Bool := false
  razorpaySubscriptionId : Option String := none
  createdAt : String := ""
  updatedAt : String := ""
deriving DecidableEq, Repr

/-- An installation-request row (spec §3; table definition not under `src/`). -/
structure IRRow where
  id : String
  customerId : String := ""
  productId : String := ""
  franchiseId : String := ""
  status : IRStatus
  assignedTechnicianId : Option String := none
  connectId : Option String := none
  razorpaySubscriptionId : Option String := none
  razorpayPaymentLink : Option String := none
  completedDate : Option String := none
  orderType : String := "RENTAL"
  updatedAt : String := ""
deriving DecidableEq, Repr

/-- A subscription row (spec §3). -/
structure SubRow where
  id : String
  connectId : String := ""
  requestId : String := ""
  customerId : String := ""
  productId : String := ""
  franchiseId : String := ""
  planName : String := ""
  status : String := "ACTIVE"
  startDate : String := ""
  currentPeriodStartDate : String := ""
  currentPeriodEndDate : Option String := none
  nextPaymentDate : Option String := none
  monthlyAmount : Int := 0
  depositAmount : Int := 0
  razorpaySubscriptionId : Option String := none
  createdAt : String := ""
  updatedAt : String := ""
deriving DecidableEq, Repr

/-- A payment row (spec §3). -/
structure PayRow where
  id : String
  installationRequestId : Option String := none
  serviceRequestId : Option String := none
  subscriptionId : Option String := none
  amount : Int := 0
  type_ : String := ""
  status : PayStatus
  paymentMethod : Option String := none
  razorpayPaymentId : Option String := none
  razorpaySubscriptionId : Option String := none
  paidDate : Option String := none
  createdAt : String := ""
  updatedAt : String := ""
deriving DecidableEq, Repr

/-- A product row (only the fields the service code reads). -/
structure ProductRow where
  id : String
  name : String := ""
  rentPrice : Int := 0
  buyPrice : Int := 0
  deposit : Int := 0
deriving DecidableEq, Repr

/-- A user row (only the fields the service code reads). -/
structure UserRow where
  id : String
  role : String
  name : Option String := none
  phone : Option String := none
  city : Option String := none
  isActive : Bool := true
deriving DecidableEq, Repr

/-- A franchise row (only the fields the service code reads). -/
structure FranchiseRow where
  id : String
  ownerId : Option String := none
  city : String := ""
  name : String := ""
deriving DecidableEq, Repr

/-- A franchise-agent assignment row. -/
structure FranchiseAgentRow where
  agentId : String
  franchiseId : String
  isActive : Bool := true
deriving DecidableEq, Repr

/-- An action-history entry.  Modelled from the spec (§4.4): the
`logActionHistory` helper lives in `utils/actionHistory`, which is not under
`src/`; an entry carries the owning-entity references, an action type,
from/to statuses and the performing actor, and is appended once per call. -/
structure ActionEntry where
  entityType : Option String := none
  entityId : Option String := none
  serviceRequestId : Option String := none
  installationRequestId : Option String := none
  paymentId : Option String := none
  actionType : String
  fromStatus : Option String := none
  toStatus : Option String := none
  performedBy : String := ""
  performedByRole : String := ""
  comment : Option String := none
deriving DecidableEq, Repr

/-- The database state: one list per table plus the append-only audit log. -/
structure DB where
  serviceRequests : List SRRow := []
  installationRequests : List IRRow := []
  subscriptions : List SubRow := []
  payments : List PayRow := []
  products : List ProductRow := []
  users : List UserRow := []
  franchises : List FranchiseRow := []
  franchiseAgents : List FranchiseAgentRow := []
  actionHistory : List ActionEntry := []
deriving DecidableEq, Repr

/-- The authenticated actor (`{userId, role}` decorated by the auth layer). -/
structure Actor where
  userId : String
  role : String
  name : Option String := none
  phone : Option String := none
deriving DecidableEq, Repr

/-- JavaScript truthiness of a nullable string (`null`/`undefined` and the
empty string are falsy). -/
def truthy : Option String → Bool
  | none => false
  | some s => s ≠ ""

/-- drizzle `update(table).set(g).where(p)`: applies `g` to every row
matching `p`. -/
def updateWhere {α : Type} (p : α → Bool) (g : α → α) (l : List α) : List α :=
  l.map (fun r => if p r then g r else r)

/-- Modelled from the spec (§4.4): `logActionHistory` (in `utils/actionHistory`,
not under `src/`) appends exactly one entry to the audit log.  The
transaction-aware wrapper `logActionHistoryInTransaction` routes the append
through the active transaction handle; in this embedding the transaction
state is threaded explicitly, so both are this one append. -/
def logActionHistory (db : DB) (e : ActionEntry) : DB :=
  { db with actionHistory := db.actionHistory ++ [e] }

/-- The allowed-transition table (`validTransitions` in
`updateServiceRequestStatus`). -/
def validTransitions : SRStatus → List SRStatus
  | .CREATED => [.ASSIGNED, .CANCELLED]
  | .ASSIGNED => [.SCHEDULED, .CANCELLED, .ASSIGNED]
  | .SCHEDULED => [.IN_PROGRESS, .CANCELLED]
  | .IN_PROGRESS => [.PAYMENT_PENDING, .COMPLETED, .CANCELLED]
  | .PAYMENT_PENDING => [.COMPLETED, .CANCELLED]
  | .COMPLETED => []
  | .CANCELLED => [.ASSIGNED, .SCHEDULED]

/-- The `BadRequest` message for an invalid transition (source line 442):
names the attempted transition and lists the valid targets (`'none'` when the
list is empty, via JS `'' || 'none'`). -/
def invalidTransitionMsg (cur tgt : SRStatus) : String :=
  "Invalid status transition from " ++ cur.val ++ " to " ++ tgt.val ++
    ". Valid transitions are: " ++
    (if (validTransitions cur).isEmpty then "none"
     else String.intercalate ", " ((validTransitions cur).map SRStatus.val))

/-- The `data` payload of `updateServiceRequestStatus`.  The source takes
`data?: {...}` with every field optional; an absent `data` object behaves
exactly like one with all fields absent, so it is one record of options. -/
structure StatusUpdateData where
  agentId : Option String := none
  completedAt : Option String := none
  scheduledDate : Option String := none
  beforeImages : Option (List String) := none
  afterImages : Option (List String) := none
deriving DecidableEq, Repr

/-- `!data?.xs || data.xs.length === 0` — absent or empty image list. -/
def imagesEmpty : Option (List String) → Bool
  | none => true
  | some l => l.length == 0

/-- `JSON.stringify` of a string array (images are URL strings; the source
stores the serialized array text). -/
def serializeImages (l : List String) : String :=
  "[" ++ String.intercalate "," (l.map (fun s => "\"" ++ s ++ "\"")) ++ "]"

/-- The `updateData` object accumulated before the transaction: a field that
is `none` is absent from the SET payload (left unchanged); `some none` sets
the column to SQL NULL; `some (some v)` sets it to `v`. -/
structure SRSet where
  status : SRStatus
  updatedAt : String
  assignedToId : Option String := none
  scheduledDate : Option String := none
  completedAt : Option String := none
  beforeImages : Option (Option String) := none
  afterImages : Option (Option String) := none
deriving DecidableEq, Repr

/-- Apply a SET payload to a row. -/
def applySRSet (u : SRSet) (r : SRRow) : SRRow :=
  { r with
    status := u.status
    updatedAt := u.updatedAt
    assignedToId := match u.assignedToId with | some a => some a | none => r.assignedToId
    scheduledDate := match u.scheduledDate with | some d => some d | none => r.scheduledDate
    completedAt := match u.completedAt with | some c => some c | none => r.completedAt
    beforeImages := match u.beforeImages with | some v => v | none => r.beforeImages
    afterImages := match u.afterImages with | some v => v | none => r.afterImages }

/-- Which column the generic image-handling block of
`updateServiceRequestStatus` writes: `beforeImages` when the target status is
IN_PROGRESS, `afterImages` otherwise (source lines 517-527). -/
def setImageField (st : SRStatus) (v : String) (u : SRSet) : SRSet :=
  if st = .IN_PROGRESS then { u with beforeImages := some (some v) }
  else { u with afterImages := some (some v) }

/-- Builds the `updateData` SET payload of `updateServiceRequestStatus`
(source lines 445-527): always status and updatedAt; CANCELLED clears both
image columns (switch case); then agentId, scheduledDate, completedAt; then
the two image-handling blocks, `afterImages` first and `beforeImages` second,
both targeting the column selected by the target status. -/
def buildUpdateData (st : SRStatus) (data : StatusUpdateData) (now : String) : SRSet :=
  let u : SRSet := { status := st, updatedAt := now }
  let u := if st = SRStatus.CANCELLED then
             { u with beforeImages := some none, afterImages := some none } else u
  let u := if truthy data.agentId then { u with assignedToId := data.agentId } else u
  let u := if truthy data.scheduledDate then { u with scheduledDate := data.scheduledDate } else u
  let u := if st = SRStatus.COMPLETED then { u with completedAt := some now } else u
  let u := match data.afterImages with
           | some l => if l.length > 0 then setImageField st (serializeImages l) u else u
           | none => u
  let u := match data.beforeImages with
           | some l => if l.length > 0 then setImageField st (serializeImages l) u else u
           | none => u
  u

/-- The status-specific validation switch of `updateServiceRequestStatus`
(source lines 451-510), minus the CANCELLED case which only mutates
`updateData` (modelled in `buildUpdateData`).  Returns the thrown error, if
any. -/
def validateStatusChange (sr : SRRow) (st : SRStatus) (data : StatusUpdateData)
    (paymentsTable : List PayRow) : Option Err :=
  match st with
  | .ASSIGNED =>
      if truthy data.agentId = false then
        some (.badRequest "Agent ID is required for assignment") else none
  | .SCHEDULED =>
      if truthy sr.assignedToId = false then
        some (.badRequest "Cannot schedule without assigned agent")
      else if truthy data.scheduledDate = false then
        some (.badRequest "Scheduled date is required") else none
  | .IN_PROGRESS =>
      if sr.type_ = "installation" ∧ imagesEmpty data.beforeImages = true then
        some (.badRequest "Before images are required to start installation service requests")
      else none
  | .PAYMENT_PENDING =>
      if sr.requirePayment = false then
        some (.badRequest "This service request does not require payment")
      else if imagesEmpty data.afterImages = true then
        some (.badRequest "Completion images are required before requesting payment")
      else none
  | .COMPLETED =>
      if truthy sr.installationRequestId = false ∧ imagesEmpty data.afterImages = true then
        some (.badRequest "Completion images are required to mark as completed")
      else if sr.requirePayment = true ∧ sr.status = SRStatus.IN_PROGRESS then
        some (.badRequest "Service requests requiring payment must go through PAYMENT_PENDING status first")
      else if sr.requirePayment = true ∧ sr.installationRequestId.isSome = true then
        match paymentsTable.find? (fun p => p.installationRequestId == sr.installationRequestId) with
        | none => some (.badRequest "Please Complete Payment First")
        | some p =>
            if p.status ≠ PayStatus.COMPLETED then
              some (.badRequest "Please Complete Payment First")
            else none
      else none
  | _ => none

/-- Installation-status target, action type and whether the stored payment
link fields are cleared, per source status
(`syncInstallationRequestStatusInTransaction`, source lines 602-626):
`none` for the unmapped source statuses CREATED and ASSIGNED. -/
def syncTarget : SRStatus → Option (IRStatus × String × Bool)
  | .IN_PROGRESS => some (.INSTALLATION_IN_PROGRESS, "INSTALLATION_REQUEST_IN_PROGRESS", false)
  | .PAYMENT_PENDING => some (.PAYMENT_PENDING, "INSTALLATION_REQUEST_COMPLETED", false)
  | .COMPLETED => some (.INSTALLATION_COMPLETED, "INSTALLATION_REQUEST_COMPLETED", false)
  | .CANCELLED => some (.CANCELLED, "INSTALLATION_REQUEST_CANCELLED", true)
  | .SCHEDULED => some (.INSTALLATION_SCHEDULED, "INSTALLATION_REQUEST_SCHEDULED", false)
  | _ => none

/-- `syncInstallationRequestStatusInTransaction` (source lines 589-644): for a
mapped source status, updates the installation-request row (status, plus
clearing `razorpayPaymentLink`/`razorpaySubscriptionId` on CANCELLED) and
appends one action-history entry, all on the caller's transaction state; for
an unmapped status it does nothing. -/
def syncInstallationRequestStatusInTransaction (db : DB) (irId : String)
    (st : SRStatus) (user : Actor) : DB :=
  match syncTarget st with
  | none => db
  | some (newStatus, actionType, clearPay) =>
    let setIR := fun (r : IRRow) =>
      let r := { r with status := newStatus }
      if clearPay then { r with razorpayPaymentLink := none, razorpaySubscriptionId := none }
      else r
    let irs := updateWhere (fun r => r.id == irId) setIR db.installationRequests
    let db' := { db with installationRequests := irs }
    logActionHistory db'
      { installationRequestId := some irId
        actionType := actionType
        fromStatus := some st.val
        toStatus := some SRStatus.ASSIGNED.val
        performedBy := user.userId
        performedByRole := user.role
        comment := some "Service agent assigned" }

/-- The action-history entry logged for the service request itself on every
successful status update (source lines 542-555). -/
def srStatusEntry (id : String) (fromSt toSt : SRStatus) (user : Actor) : ActionEntry :=
  { entityType := some "service_request"
    entityId := some id
    actionType := "status_updated_to_" ++ toSt.lower
    fromStatus := some fromSt.val
    toStatus := some toSt.val
    performedBy := user.userId
    performedByRole := user.role }

/-- The additional entry logged against the linked subscription (source lines
558-570). -/
def subStatusEntry (sid : String) (toSt : SRStatus) (user : Actor) : ActionEntry :=
  { entityType := some "subscription"
    entityId := some sid
    actionType := "service_request_" ++ toSt.lower
    performedBy := user.userId
    performedByRole := user.role }

/-- The state produced by the transaction body of `updateServiceRequestStatus`
when no write fails (source lines 530-573): the service-request row update,
then the installation synchronizer when installation-linked, then the
service-request audit entry, then the subscription audit entry when
subscription-linked. -/
def updateSRSTxState (db : DB) (id : String) (st : SRStatus) (user : Actor)
    (data : StatusUpdateData) (now : String) (sr : SRRow) : DB :=
  let upd := buildUpdateData st data now
  let srs1 := updateWhere (fun r => r.id == id) (applySRSet upd) db.serviceRequests
  let db1 := { db with serviceRequests := srs1 }
  let db2 := if truthy sr.installationRequestId then
               syncInstallationRequestStatusInTransaction db1
                 (sr.installationRequestId.getD "") st user
             else db1
  let db3 := logActionHistory db2 (srStatusEntry id sr.status st user)
  if truthy sr.subscriptionId then
    logActionHistory db3 (subStatusEntry (sr.subscriptionId.getD "") st user)
  else db3

/-- `updateServiceRequestStatus` (source lines 402-574).  Validation happens
before the transaction: missing request, invalid transition, and the
status-specific preconditions each throw without touching the store.  The
transaction then produces `updateSRSTxState`.  `txFault` injects a
persistence failure after the service-request update inside the transaction;
an error inside the transaction rolls everything back (the committed state is
the caller's input state). -/
def updateServiceRequestStatus (db : DB) (id : String) (st : SRStatus) (user : Actor)
    (data : StatusUpdateData) (now : String) (txFault : Bool) : Except Err DB :=
  match db.serviceRequests.find? (fun r => r.id == id) with
  | none => .error (.notFound "Service Request")
  | some sr =>
    if st ∈ validTransitions sr.status then
      match validateStatusChange sr st data db.payments with
      | some e => .error e
      | none =>
        if txFault then .error (.serverError "transaction aborted")
        else .ok (updateSRSTxState db id st user data now sr)
    else .error (.badRequest (invalidTransitionMsg sr.status st))

/-- The state actually committed by `updateServiceRequestStatus`: on any
thrown error (validation or rollback) the store is unchanged. -/
def updateServiceRequestStatusCommitted (db : DB) (id : String) (st : SRStatus)
    (user : Actor) (data : StatusUpdateData) (now : String) (txFault : Bool) : DB :=
  match updateServiceRequestStatus db id st user data now txFault with
  | .ok db' => db'
  | .error _ => db

/-- The permission/agent checks of `assignServiceAgent` (source lines
671-688), each throwing before any write. -/
def assignServiceAgentValidate (db : DB) (sr : SRRow) (assignedToId : String)
    (user : Actor) : Option Err :=
  if (user.role == "admin" || user.role == "franchise_owner") = false then
    some (.forbidden "You do not have permission to assign service agents")
  else
    let franchiseOk :=
      if user.role == "franchise_owner" then
        match db.franchises.find? (fun f => some f.id == sr.franchiseId) with
        | none => false
        | some f => f.ownerId == some user.userId
      else true
    if franchiseOk = false then
      some (.forbidden "Service request is not in your franchise area")
    else
      match db.users.find? (fun u => u.id == assignedToId) with
      | none => some (.badRequest "Invalid service agent")
      | some agent =>
        if agent.role ≠ "service_agent" then some (.badRequest "Invalid service agent")
        else none

/-- `assignServiceAgent` (source lines 666-712): admin/franchise-owner only,
franchise-owner scoped to their own franchise, agent must exist with the
service-agent role; then one update setting `assignedToId` and status
ASSIGNED, plus one audit entry. -/
def assignServiceAgent (db : DB) (id : String) (assignedToId : String)
    (user : Actor) (now : String) : Except Err DB :=
  match db.serviceRequests.find? (fun r => r.id == id) with
  | none => .error (.notFound "Service Request")
  | some sr =>
    match assignServiceAgentValidate db sr assignedToId user with
    | some e => .error e
    | none =>
      let setRow := fun (r : SRRow) =>
        { r with assignedToId := some assignedToId, status := SRStatus.ASSIGNED,
                 updatedAt := now }
      let srs := updateWhere (fun r => r.id == id) setRow db.serviceRequests
      let db1 := { db with serviceRequests := srs }
      .ok (logActionHistory db1
        { serviceRequestId := some id
          actionType := "SERVICE_REQUEST_ASSIGNED"
          fromStatus := some sr.status.val
          toStatus := some SRStatus.ASSIGNED.val
          performedBy := user.userId
          performedByRole := user.role
          comment := some "Service agent assigned" })

/-- The already-assigned/installation/franchise checks of
`assignServiceRequestToSelf` (source lines 845-868). -/
def assignToSelfValidate (db : DB) (sr : SRRow) (user : Actor) : Option Err :=
  if truthy sr.assignedToId then
    some (.badRequest "Service request is already assigned")
  else if truthy sr.installationRequestId then
    some (.badRequest "Installation service requests cannot be self-assigned")
  else
    let agentOk :=
      if user.role == "service_agent" then
        (db.franchiseAgents.find? (fun fa =>
          fa.agentId == user.userId && some fa.franchiseId == sr.franchiseId
            && fa.isActive)).isSome
      else true
    if agentOk = false then
      some (.forbidden "You are not authorized to work in this franchise area")
    else none

/-- `assignServiceRequestToSelf` (source lines 840-893): request must be
unassigned and not installation-linked; a service agent must be active in the
request's franchise; then one update setting `assignedToId` to the caller and
status ASSIGNED, plus one audit entry. -/
def assignServiceRequestToSelf (db : DB) (id : String) (user : Actor)
    (now : String) : Except Err DB :=
  match db.serviceRequests.find? (fun r => r.id == id) with
  | none => .error (.notFound "Service Request")
  | some sr =>
    match assignToSelfValidate db sr user with
    | some e => .error e
    | none =>
      let setRow := fun (r : SRRow) =>
        { r with assignedToId := some user.userId, status := SRStatus.ASSIGNED,
                 updatedAt := now }
      let srs := updateWhere (fun r => r.id == id) setRow db.serviceRequests
      let db1 := { db with serviceRequests := srs }
      .ok (logActionHistory db1
        { serviceRequestId := some id
          actionType := "SERVICE_REQUEST_ASSIGNED"
          fromStatus := some sr.status.val
          toStatus := some SRStatus.ASSIGNED.val
          performedBy := user.userId
          performedByRole := user.role
          comment := some "Service agent self-assigned" })

/-- The `data` argument of `createInstallationServiceRequest`. -/
structure CreateISRData where
  installationRequestId : String
  assignedToId : Option String := none
  scheduledDate : Option String := none
  description : String := ""
deriving DecidableEq, Repr

/-- The permission and agent checks of the fresh-creation branch of
`createInstallationServiceRequest` (source lines 310-327). -/
def createISRValidate (db : DB) (ir : IRRow) (data : CreateISRData)
    (user : Actor) : Option Err :=
  let permissionOk :=
    if user.role == "franchise_owner" then
      match db.franchises.find? (fun f => f.id == ir.franchiseId) with
      | none => false
      | some f => f.ownerId == some user.userId
    else true
  if permissionOk = false then
    some (.forbidden "Installation request is not in your franchise area")
  else if truthy data.assignedToId then
    match db.users.find? (fun u => some u.id == data.assignedToId) with
    | none => some (Err.badRequest "Invalid service agent")
    | some agent =>
        if agent.role ≠ "service_agent" then
          some (Err.badRequest "Invalid service agent")
        else none
  else none

/-- `createInstallationServiceRequest` (source lines 270-399).  If an
installation service request already exists for the installation request, it
is updated to SCHEDULED (the `assignedToId` SET value is `data.assignedToId`,
skipped when absent — drizzle omits `undefined` SET fields) and the
installation request is set to INSTALLATION_SCHEDULED, with no permission or
agent checks.  Otherwise permissions and the optional agent are validated and
a fresh row is inserted with status SCHEDULED when an agent is supplied and
CREATED otherwise, and the installation request is updated.  Both branches
then log one installation-request audit entry. -/
def createInstallationServiceRequest (db : DB) (data : CreateISRData) (user : Actor)
    (newId : String) (now : String) : Except Err DB :=
  match db.installationRequests.find? (fun r => r.id == data.installationRequestId) with
  | none => .error (.notFound "Installation Request")
  | some ir =>
    let logged := fun (d : DB) =>
      logActionHistory d
        { installationRequestId := some data.installationRequestId
          actionType := "INSTALLATION_REQUEST_SCHEDULED"
          fromStatus := some ir.status.val
          toStatus := some IRStatus.INSTALLATION_SCHEDULED.val
          performedBy := user.userId
          performedByRole := user.role
          comment := some "Installation scheduled via service request creation" }
    match db.serviceRequests.find? (fun r =>
        r.installationRequestId == some data.installationRequestId
          && r.type_ == "installation") with
    | some existing =>
      let setRow := fun (r : SRRow) =>
        { r with status := SRStatus.SCHEDULED,
                 assignedToId := match data.assignedToId with
                                 | some a => some a
                                 | none => r.assignedToId }
      let srs := updateWhere (fun r => r.id == existing.id) setRow db.serviceRequests
      let irs := updateWhere (fun r => r.id == ir.id)
        (fun r => { r with status := IRStatus.INSTALLATION_SCHEDULED })
        db.installationRequests
      .ok (logged { db with serviceRequests := srs, installationRequests := irs })
    | none =>
      match createISRValidate db ir data user with
      | some e => .error e
      | none =>
          let newRow : SRRow :=
            { id := newId
              subscriptionId := none
              customerId := ir.customerId
              productId := ir.productId
              installationRequestId := some data.installationRequestId
              type_ := "installation"
              description := data.description
              images := none
              status := if truthy data.assignedToId then SRStatus.SCHEDULED
                        else SRStatus.CREATED
              assignedToId := data.assignedToId
              franchiseId := some ir.franchiseId
              scheduledDate := data.scheduledDate
              completedDate := none
              beforeImages := none
              afterImages := none
              requirePayment := true
              createdAt := now
              updatedAt := now }
          let irs := updateWhere (fun r => r.id == ir.id)
            (fun r => { r with status := IRStatus.INSTALLATION_SCHEDULED,
                               assignedTechnicianId :=
                                 match data.assignedToId with
                                 | some a => some a
                                 | none => r.assignedTechnicianId })
            db.installationRequests
          .ok (logged { db with serviceRequests := db.serviceRequests ++ [newRow],
                                installationRequests := irs })

/-- High-level events of a reconciliation run, used to settle the ordering
claims: transaction open/commit/rollback, the two payment-gateway reads, and
a local database write. -/
inductive Ev where
  | txBegin | txCommit | txRollback | gwFetchSub | gwListInvoices | dbWrite
deriving DecidableEq, Repr

/-- A payment-gateway subscription object, as read by reconciliation.
Modelled from the spec (§6): `fetchSubscription(id) → {status, current_start,
current_end}`. -/
structure GwSubscription where
  id : String
  status : String
  current_start : Option Int := none
  current_end : Option Int := none
deriving DecidableEq, Repr

/-- A payment-gateway invoice, as read by reconciliation.  Modelled from the
spec (§6): `listInvoices(subscriptionId) → [{status, payment_id, amount}]`. -/
structure GwInvoice where
  status : String
  payment_id : String
  amount : Int
deriving DecidableEq, Repr

/-- The external payment gateway: a read-only collaborator.  `subs` models
`razorpay.subscriptions.fetch`, `invoicesFor` models `razorpay.invoices.all`
with `count: 1`-style listing keyed by the (possibly null) subscription id the
code passes. -/
structure Gateway where
  subs : String → GwSubscription
  invoicesFor : Option String → List GwInvoice

/-- Fresh identifiers for the rows reconciliation may create
(`generateId('payment')`, `generateId('sub')`, `generateConnectId()`). -/
structure FreshIds where
  paymentId : String
  subId : String
  connectId : String
deriving DecidableEq, Repr

/-- Date rendering of a gateway epoch timestamp
(`new Date(t * 1000).toISOString()`); the exact text is irrelevant to every
claim, only that it is a pure function of the timestamp. -/
def toIso (t : Int) : String := "iso:" ++ toString t

/-- `getNextMonthDate` (source lines 1390-1394); the exact text is irrelevant
to every claim, only that it is a pure function of the input date. -/
def getNextMonthDate (s : String) : String := s ++ "+1month"

/-- Replace one table of the store (helper for drizzle writes). -/
def withPayments (db : DB) (l : List PayRow) : DB := { db with payments := l }

/-- Replace the subscriptions table. -/
def withSubscriptions (db : DB) (l : List SubRow) : DB := { db with subscriptions := l }

/-- Replace the installation-requests table. -/
def withIRs (db : DB) (l : List IRRow) : DB := { db with installationRequests := l }

/-- Replace the service-requests table. -/
def withSRs (db : DB) (l : List SRRow) : DB := { db with serviceRequests := l }

/-- The subscription row inserted by reconciliation (source lines 1128-1146
and 1255-1273): keyed by `requestId = installationRequestId`, plan data from
the installation request's product, gateway subscription id recorded. -/
def subscriptionRowFor (ir2 : IRRow) (prod : ProductRow) (irId : String)
    (fresh : FreshIds) (now cps : String) (cpe npd : Option String)
    (gwSubId : String) : SubRow :=
  { id := fresh.subId
    connectId := fresh.connectId
    requestId := irId
    customerId := ir2.customerId
    productId := ir2.productId
    franchiseId := ir2.franchiseId
    planName := prod.name ++ " Rental Plan"
    status := "ACTIVE"
    startDate := now
    currentPeriodStartDate := cps
    currentPeriodEndDate := cpe
    nextPaymentDate := npd
    monthlyAmount := prod.rentPrice
    depositAmount := prod.deposit
    razorpaySubscriptionId := some gwSubId
    createdAt := now
    updatedAt := now }

/-- The repair path of `refreshPaymentStatus` (source lines 1098-1204): the
gateway payment already has a COMPLETED local Payment row `ep`; ensure the
subscription exists (create it, link it into the payment when the payment has
no subscription yet, complete the installation request and the service
request, log one entry) and report success without re-writing the payment.
The returned event list holds only the local write events. -/
def refreshRepairPath (db : DB) (srId irId : String) (user : Actor)
    (fresh : FreshIds) (now : String) (gwSub : GwSubscription) (ep : PayRow) :
    Except Err DB × List Ev :=
  match db.subscriptions.find? (fun s => s.requestId == irId) with
  | some _ => (.ok db, [])
  | none =>
    match db.installationRequests.find? (fun r => r.id == irId) with
    | none => (.ok db, [])
    | some ir2 =>
      match db.products.find? (fun p => p.id == ir2.productId) with
      | none => (.error .jsError, [])
      | some prod =>
        let cps := match gwSub.current_start with | some t => toIso t | none => now
        let cpe := gwSub.current_end.map toIso
        let npd := gwSub.current_end.map toIso
        let newSub := subscriptionRowFor ir2 prod irId fresh now cps cpe npd gwSub.id
        let db1 := withSubscriptions db (db.subscriptions ++ [newSub])
        let linkPay := fun (p : PayRow) =>
          { p with subscriptionId := some fresh.subId, updatedAt := now,
                   razorpaySubscriptionId := some gwSub.id }
        let db2 := if ep.subscriptionId == none then
                     withPayments db1 (updateWhere (fun p => p.id == ep.id) linkPay db1.payments)
                   else db1
        let evPay : List Ev := if ep.subscriptionId == none then [Ev.dbWrite] else []
        let setIR := fun (r : IRRow) =>
          { r with connectId := some fresh.connectId,
                   status := IRStatus.INSTALLATION_COMPLETED,
                   completedDate := some now, updatedAt := now,
                   razorpaySubscriptionId := some gwSub.id }
        let db3 := withIRs db2 (updateWhere (fun r => r.id == irId) setIR db2.installationRequests)
        let setSR := fun (r : SRRow) =>
          { r with status := SRStatus.COMPLETED,
                   razorpaySubscriptionId := some gwSub.id,
                   subscriptionId := some fresh.subId,
                   completedAt := some now, updatedAt := now }
        let db4 := withSRs db3 (updateWhere (fun r => r.id == srId) setSR db3.serviceRequests)
        let db5 := logActionHistory db4
          { installationRequestId := some irId
            actionType := "INSTALLATION_REQUEST_COMPLETED"
            fromStatus := some IRStatus.PAYMENT_PENDING.val
            toStatus := some IRStatus.INSTALLATION_COMPLETED.val
            performedBy := user.userId
            performedByRole := user.role
            comment := some "Subscription created for completed payment" }
        (.ok db5, [Ev.dbWrite] ++ evPay ++ [Ev.dbWrite, Ev.dbWrite, Ev.dbWrite])

/-- The final writes shared by the fresh-payment path (source lines
1296-1343): complete the installation request and the service request and log
the payment and service-request entries. -/
def refreshFinishMain (db : DB) (srId irId paymentId : String) (user : Actor)
    (now : String) (gwSub : GwSubscription) : DB :=
  let setIR := fun (r : IRRow) =>
    { r with status := IRStatus.INSTALLATION_COMPLETED, completedDate := some now,
             updatedAt := now, razorpaySubscriptionId := some gwSub.id }
  let db1 := withIRs db (updateWhere (fun r => r.id == irId) setIR db.installationRequests)
  let setSR := fun (r : SRRow) =>
    { r with status := SRStatus.COMPLETED, completedAt := some now, updatedAt := now,
             razorpaySubscriptionId := some gwSub.id }
  let db2 := withSRs db1 (updateWhere (fun r => r.id == srId) setSR db1.serviceRequests)
  let db3 := logActionHistory db2
    { paymentId := some paymentId
      installationRequestId := some irId
      actionType := "PAYMENT_COMPLETED"
      fromStatus := some "PENDING"
      toStatus := some "COMPLETED"
      performedBy := user.userId
      performedByRole := user.role
      comment := some "Payment status refreshed from Razorpay" }
  logActionHistory db3
    { serviceRequestId := some srId
      actionType := "SERVICE_REQUEST_COMPLETED"
      fromStatus := some SRStatus.PAYMENT_PENDING.val
      toStatus := some SRStatus.COMPLETED.val
      performedBy := user.userId
      performedByRole := user.role
      comment := some "Service request completed after payment verification" }

/-- The payment row inserted by the fresh-payment path (source lines
1225-1237): amount in rupees (`amount / 100`), gateway identifiers recorded,
status COMPLETED. -/
def freshPaymentRow (irId paymentId : String) (inv : GwInvoice)
    (gwSub : GwSubscription) (now : String) : PayRow :=
  { id := paymentId
    installationRequestId := some irId
    amount := inv.amount / 100
    type_ := "SUBSCRIPTION"
    status := PayStatus.COMPLETED
    paymentMethod := some "SUBSCRIPTION"
    razorpayPaymentId := some inv.payment_id
    razorpaySubscriptionId := some gwSub.id
    paidDate := some now
    createdAt := now
    updatedAt := now }

/-- The subscription-creation writes of the fresh-payment path (source lines
1245-1294): insert the subscription, link it into the payment, stamp the
connect id on the installation request and the subscription id on the service
request. -/
def mainCreateWrites (db1 : DB) (srId irId paymentId : String) (fresh : FreshIds)
    (now : String) (gwSub : GwSubscription) (ir2 : IRRow) (prod : ProductRow) : DB :=
  let newSub := subscriptionRowFor ir2 prod irId fresh now now
    (some (getNextMonthDate now)) (some (getNextMonthDate now)) gwSub.id
  let db2 := withSubscriptions db1 (db1.subscriptions ++ [newSub])
  let db3 := withPayments db2 (updateWhere (fun p => p.id == paymentId)
    (fun p => { p with subscriptionId := some fresh.subId }) db2.payments)
  let db4 := withIRs db3 (updateWhere (fun r => r.id == irId)
    (fun r => { r with connectId := some fresh.connectId, updatedAt := now })
    db3.installationRequests)
  withSRs db4 (updateWhere (fun r => r.id == srId)
    (fun r => { r with subscriptionId := some fresh.subId }) db4.serviceRequests)

/-- The writes of the fresh-payment path after the payment upsert (source
lines 1240-1353): ensure the subscription exists (creating and linking it
when missing), then complete both requests and log the two audit entries. -/
def refreshMainRest (db1 : DB) (srId irId paymentId : String) (user : Actor)
    (fresh : FreshIds) (now : String) (gwSub : GwSubscription) :
    Except Err DB × List Ev :=
  match db1.subscriptions.find? (fun s => s.requestId == irId) with
  | some _ =>
      (.ok (refreshFinishMain db1 srId irId paymentId user now gwSub),
       [Ev.dbWrite, Ev.dbWrite, Ev.dbWrite, Ev.dbWrite, Ev.dbWrite])
  | none =>
    match db1.installationRequests.find? (fun r => r.id == irId) with
    | none =>
        (.ok (refreshFinishMain db1 srId irId paymentId user now gwSub),
         [Ev.dbWrite, Ev.dbWrite, Ev.dbWrite, Ev.dbWrite, Ev.dbWrite])
    | some ir2 =>
      match db1.products.find? (fun p => p.id == ir2.productId) with
      | none => (.error .jsError, [Ev.dbWrite])
      | some prod =>
        (.ok (refreshFinishMain
            (mainCreateWrites db1 srId irId paymentId fresh now gwSub ir2 prod)
            srId irId paymentId user now gwSub),
         [Ev.dbWrite, Ev.dbWrite, Ev.dbWrite, Ev.dbWrite, Ev.dbWrite,
          Ev.dbWrite, Ev.dbWrite, Ev.dbWrite, Ev.dbWrite])

/-- The fresh-payment path of `refreshPaymentStatus` (source lines
1206-1353): upsert the payment to COMPLETED (the update arm is only reachable
with a pre-existing row, which the early repair return rules out, but it is
modelled as written), then `refreshMainRest`.  `ep?` is the `existingPayment`
lookup result. -/
def refreshMainPath (db : DB) (srId irId : String) (ep? : Option PayRow)
    (user : Actor) (fresh : FreshIds) (now : String) (gwSub : GwSubscription)
    (inv : GwInvoice) : Except Err DB × List Ev :=
  let paymentId := match ep? with | some ep => ep.id | none => fresh.paymentId
  let db1 :=
    match ep? with
    | some ep =>
      let setPay := fun (p : PayRow) =>
        { p with status := PayStatus.COMPLETED, razorpayPaymentId := some inv.payment_id,
                 razorpaySubscriptionId := some gwSub.id,
                 paymentMethod := some "SUBSCRIPTION", amount := inv.amount,
                 paidDate := some now, updatedAt := now }
      withPayments db (updateWhere (fun p => p.id == ep.id) setPay db.payments)
    | none => withPayments db (db.payments ++ [freshPaymentRow irId paymentId inv gwSub now])
  refreshMainRest db1 srId irId paymentId user fresh now gwSub

/-- Dispatch on the `existingPayment` lookup (source lines 1088-1104 and
1206-1238). -/
def refreshApplyPayment (db : DB) (srId irId : String) (user : Actor)
    (fresh : FreshIds) (now : String) (gwSub : GwSubscription) (inv : GwInvoice) :
    Except Err DB × List Ev :=
  let ep? := db.payments.find? (fun p =>
    p.installationRequestId == some irId && p.razorpayPaymentId == some inv.payment_id
      && p.status == PayStatus.COMPLETED)
  match ep? with
  | some ep =>
      if ep.status == PayStatus.COMPLETED then
        refreshRepairPath db srId irId user fresh now gwSub ep
      else refreshMainPath db srId irId (some ep) user fresh now gwSub inv
  | none => refreshMainPath db srId irId none user fresh now gwSub inv

/-- The body of the `db.transaction` callback of `refreshPaymentStatus`
(source lines 1055-1366): fetch the gateway subscription, list its invoices
keyed by the service request's stored gateway-subscription id, and when the
first invoice is paid apply the payment; otherwise report pending with no
writes.  Event list: the two gateway reads followed by the local writes. -/
def refreshTxBody (db : DB) (gw : Gateway) (srId : String) (sr : SRRow) (irId : String)
    (gwSubId : String) (user : Actor) (fresh : FreshIds) (now : String) :
    Except Err DB × List Ev :=
  let gwSub := gw.subs gwSubId
  if gwSub.status == "active" || gwSub.status == "authenticated" then
    let invoices := gw.invoicesFor sr.razorpaySubscriptionId
    match invoices.head? with
    | some inv =>
      if inv.status == "paid" then
        let r := refreshApplyPayment db srId irId user fresh now gwSub inv
        (r.1, [Ev.gwFetchSub, Ev.gwListInvoices] ++ r.2)
      else (.ok db, [Ev.gwFetchSub, Ev.gwListInvoices])
    | none => (.ok db, [Ev.gwFetchSub, Ev.gwListInvoices])
  else (.ok db, [Ev.gwFetchSub])

/-- The transaction wrapper of `refreshPaymentStatus`: the callback result is
committed, or any thrown error is caught and re-thrown as the generic
reconciliation `BadRequest` with the transaction rolled back (source lines
1055, 1362-1366). -/
def refreshTxRun (body : Except Err DB × List Ev) : Except Err DB × List Ev :=
  match body with
  | (.ok db', evs) => (.ok db', [Ev.txBegin] ++ evs ++ [Ev.txCommit])
  | (.error _, evs) =>
      (.error (.badRequest "Failed to refresh payment status from Razorpay"),
       [Ev.txBegin] ++ evs ++ [Ev.txRollback])

/-- `refreshPaymentStatus` (source lines 1029-1367).  Pre-transaction
validations: the service request must exist, be installation-linked and in
PAYMENT_PENDING, and its installation request must carry a gateway
subscription id.  The transaction then opens and the gateway is read inside
it; any error inside the callback is caught and re-thrown as the generic
reconciliation `BadRequest`, rolling the transaction back.  Returns the
result together with the event trace of the run. -/
def refreshPaymentStatus (db : DB) (gw : Gateway) (srId : String) (user : Actor)
    (fresh : FreshIds) (now : String) : Except Err DB × List Ev :=
  match db.serviceRequests.find? (fun r => r.id == srId) with
  | none => (.error (.notFound "Service Request"), [])
  | some sr =>
    if ¬ truthy sr.installationRequestId then
      (.error (.badRequest "This service request is not linked to an installation"), [])
    else if sr.status ≠ SRStatus.PAYMENT_PENDING then
      (.error (.badRequest "Installation must be in payment pending state"), [])
    else
      let irId := sr.installationRequestId.getD ""
      match db.installationRequests.find? (fun r => r.id == irId) with
      | none => (.error .jsError, [])
      | some ir =>
        if ¬ truthy ir.razorpaySubscriptionId then
          (.error (.badRequest "No payment subscription found for this request"), [])
        else
          let gwSubId := ir.razorpaySubscriptionId.getD ""
          refreshTxRun (refreshTxBody db gw srId sr irId gwSubId user fresh now)

/-- The state committed by `refreshPaymentStatus`: the input state on any
error (validation failure or transaction rollback). -/
def refreshPaymentStatusCommitted (db : DB) (gw : Gateway) (srId : String)
    (user : Actor) (fresh : FreshIds) (now : String) : DB :=
  match (refreshPaymentStatus db gw srId user fresh now).1 with
  | .ok db' => db'
  | .error _ => db

/-- An audit entry written for the service request itself (`entityType
'service_request'` with that entity id). -/
def isServiceRequestEntry (id : String) (e : ActionEntry) : Bool :=
  e.entityType == some "service_request" && e.entityId == some id

/-- An audit entry written for a given subscription. -/
def isSubscriptionEntryFor (sid : String) (e : ActionEntry) : Bool :=
  e.entityType == some "subscription" && e.entityId == some sid

/-- Any subscription-typed audit entry. -/
def isSubscriptionEntry (e : ActionEntry) : Bool :=
  e.entityType == some "subscription"

/-- The per-request invariant of spec §3: `assignedToId` non-null whenever the
status is neither CREATED nor CANCELLED. -/
def srInvariant (r : SRRow) : Bool :=
  r.status == SRStatus.CREATED || r.status == SRStatus.CANCELLED || r.assignedToId.isSome

/-- The invariant over the whole service-requests table. -/
def dbSRInvariant (db : DB) : Bool :=
  db.serviceRequests.all srInvariant

/- Generic lemmas about the drizzle-style table update. -/

theorem find?_updateWhere {α : Type} (p : α → Bool) (g : α → α) (l : List α)
    (hg : ∀ a, p a = true → p (g a) = true) :
    (updateWhere p g l).find? p = (l.find? p).map g := by
  induction l with
  | nil => rfl
  | cons a t ih =>
    by_cases h : p a = true
    · simp only [updateWhere, List.map_cons, if_pos h]
      rw [List.find?_cons_of_pos _ (hg a h), List.find?_cons_of_pos _ h, Option.map_some']
    · simp only [updateWhere, List.map_cons, if_neg h]
      rw [List.find?_cons_of_neg _ (by simpa using h), List.find?_cons_of_neg _ (by simpa using h)]
      exact ih

theorem countP_updateWhere {α : Type} (q p : α → Bool) (g : α → α) (l : List α)
    (hg : ∀ a, q (g a) = q a) :
    (updateWhere p g l).countP q = l.countP q := by
  induction l with
  | nil => rfl
  | cons a t ih =>
    by_cases h : p a = true
    · simp only [updateWhere, List.map_cons, if_pos h, List.countP_cons, hg] at *
      omega
    · simp only [updateWhere, List.map_cons, if_neg h, List.countP_cons] at *
      omega

theorem all_updateWhere {α : Type} (q p : α → Bool) (g : α → α) (l : List α)
    (hl : l.all q = true) (hg : ∀ a, q a = true → q (g a) = true) :
    (updateWhere p g l).all q = true := by
  induction l with
  | nil => rfl
  | cons a t ih =>
    simp only [List.all_cons, Bool.and_eq_true] at hl
    by_cases h : p a = true
    · simp only [updateWhere, List.map_cons, if_pos h, List.all_cons, Bool.and_eq_true]
      exact ⟨hg a hl.1, ih hl.2⟩
    · simp only [updateWhere, List.map_cons, if_neg h, List.all_cons, Bool.and_eq_true]
      exact ⟨hl.1, ih hl.2⟩

theorem all_append_bool {α : Type} (q : α → Bool) (l₁ l₂ : List α) :
    (l₁ ++ l₂).all q = (l₁.all q && l₂.all q) := by
  simp [List.all_append]

/- Structural lemmas about the installation synchronizer. -/

theorem sync_serviceRequests (db : DB) (irId : String) (st : SRStatus) (user : Actor) :
    (syncInstallationRequestStatusInTransaction db irId st user).serviceRequests
      = db.serviceRequests := by
  unfold syncInstallationRequestStatusInTransaction
  cases h : syncTarget st with
  | none => rfl
  | some v => obtain ⟨a, b, c⟩ := v; rfl

theorem sync_actionHistory_countP (db : DB) (irId : String) (st : SRStatus)
    (user : Actor) (q : ActionEntry → Bool)
    (hq : ∀ e, e.entityType = none → q e = false) :
    (syncInstallationRequestStatusInTransaction db irId st user).actionHistory.countP q
      = db.actionHistory.countP q := by
  unfold syncInstallationRequestStatusInTransaction
  cases h : syncTarget st with
  | none => rfl
  | some v =>
    obtain ⟨a, b, c⟩ := v
    simp only [logActionHistory, List.countP_append, List.countP_cons, List.countP_nil]
    rw [hq _ rfl]
    simp

/-- Claim C1: for every stored service request and every
(currentStatus, newStatus) pair outside the allowed-transition table,
`updateServiceRequestStatus` throws `BadRequest` naming the invalid
transition, and the committed store is the unchanged input store (no status,
field, or audit writes occur). -/
theorem C1_invalid_transition_rejects_without_writes
    (db : DB) (id : String) (st : SRStatus) (user : Actor) (data : StatusUpdateData)
    (now : String) (fault : Bool) (sr : SRRow)
    (hfind : db.serviceRequests.find? (fun r => r.id == id) = some sr)
    (hinv : st ∉ validTransitions sr.status) :
    updateServiceRequestStatus db id st user data now fault
        = .error (.badRequest (invalidTransitionMsg sr.status st))
      ∧ updateServiceRequestStatusCommitted db id st user data now fault = db := by
  have h1 : updateServiceRequestStatus db id st user data now fault
      = .error (.badRequest (invalidTransitionMsg sr.status st)) := by
    unfold updateServiceRequestStatus
    rw [hfind]
    simp [hinv]
  refine ⟨h1, ?_⟩
  unfold updateServiceRequestStatusCommitted
  rw [h1]

/-- Concrete fixtures shared by the witnesses. -/
def actorAdmin : Actor := { userId := "u-adm", role := "admin" }

def srqCompleted : SRRow := { id := "srq1", status := SRStatus.COMPLETED }

def dbCompleted : DB := { serviceRequests := [srqCompleted] }

/-- Characterization of `updateServiceRequestStatus` once the row lookup is
fixed: validation errors, the injected-fault rollback, or the transaction
result. -/
theorem updateSRS_char (db : DB) (id : String) (st : SRStatus) (user : Actor)
    (data : StatusUpdateData) (now : String) (fault : Bool) (sr : SRRow)
    (hfind : db.serviceRequests.find? (fun r => r.id == id) = some sr) :
    updateServiceRequestStatus db id st user data now fault =
      (if st ∈ validTransitions sr.status then
        match validateStatusChange sr st data db.payments with
        | some e => .error e
        | none =>
          if fault then .error (.serverError "transaction aborted")
          else .ok (updateSRSTxState db id st user data now sr)
      else .error (.badRequest (invalidTransitionMsg sr.status st))) := by
  unfold updateServiceRequestStatus
  rw [hfind]

/-- The transaction body only rewrites the matched service-request row. -/
theorem updateSRSTxState_serviceRequests (db : DB) (id : String) (st : SRStatus)
    (user : Actor) (data : StatusUpdateData) (now : String) (sr : SRRow) :
    (updateSRSTxState db id st user data now sr).serviceRequests
      = updateWhere (fun r => r.id == id)
          (applySRSet (buildUpdateData st data now)) db.serviceRequests := by
  unfold updateSRSTxState
  by_cases h1 : truthy sr.installationRequestId = true <;>
    by_cases h2 : truthy sr.subscriptionId = true <;>
      simp [h1, h2, logActionHistory, sync_serviceRequests]

theorem C1_invalid_transition_rejects_without_writes_witness :
    updateServiceRequestStatus dbCompleted "srq1" SRStatus.ASSIGNED actorAdmin {} "t0" false
        = .error (.badRequest (invalidTransitionMsg SRStatus.COMPLETED SRStatus.ASSIGNED))
      ∧ updateServiceRequestStatusCommitted dbCompleted "srq1" SRStatus.ASSIGNED actorAdmin {} "t0" false
        = dbCompleted :=
  C1_invalid_transition_rejects_without_writes dbCompleted "srq1" SRStatus.ASSIGNED
    actorAdmin {} "t0" false srqCompleted (by decide) (by decide)

/-- Closed form of the `beforeImages` SET slot produced by
`buildUpdateData`. -/
def beforeSlot (st : SRStatus) (data : StatusUpdateData) : Option (Option String) :=
  let afterStep : Option (Option String) :=
    match data.afterImages with
    | some m => if 0 < m.length then some (some (serializeImages m)) else none
    | none => none
  if st = SRStatus.IN_PROGRESS then
    match data.beforeImages with
    | some l => if 0 < l.length then some (some (serializeImages l)) else afterStep
    | none => afterStep
  else if st = SRStatus.CANCELLED then some none else none

/-- Closed form of the `afterImages` SET slot produced by
`buildUpdateData`. -/
def afterSlot (st : SRStatus) (data : StatusUpdateData) : Option (Option String) :=
  let base : Option (Option String) := if st = SRStatus.CANCELLED then some none else none
  let afterStep : Option (Option String) :=
    match data.afterImages with
    | some m => if 0 < m.length then some (some (serializeImages m)) else base
    | none => base
  if st = SRStatus.IN_PROGRESS then none
  else
    match data.beforeImages with
    | some l => if 0 < l.length then some (some (serializeImages l)) else afterStep
    | none => afterStep

theorem buildUpdateData_beforeImages (st : SRStatus) (data : StatusUpdateData)
    (now : String) :
    (buildUpdateData st data now).beforeImages = beforeSlot st data := by
  cases st <;> rcases hB : data.beforeImages with _ | l <;>
    rcases hA : data.afterImages with _ | m <;>
    simp [buildUpdateData, beforeSlot, setImageField, hB, hA,
      apply_ite SRSet.beforeImages]

theorem buildUpdateData_afterImages (st : SRStatus) (data : StatusUpdateData)
    (now : String) :
    (buildUpdateData st data now).afterImages = afterSlot st data := by
  cases st <;> rcases hB : data.beforeImages with _ | l <;>
    rcases hA : data.afterImages with _ | m <;>
    simp [buildUpdateData, afterSlot, setImageField, hB, hA,
      apply_ite SRSet.afterImages]

/-- Claim C10: the column that receives a supplied image array is selected by
the target status, not by the payload field name: for target IN_PROGRESS a
payload `afterImages` array lands in the `beforeImages` column (and the
`afterImages` column is not written), for any other target a payload
`beforeImages` array lands in the `afterImages` column, and when both payload
fields are non-empty the later-applied `beforeImages` payload wins. -/
theorem C10_image_destination_selected_by_target_status
    (data : StatusUpdateData) (now : String) :
    (∀ a, data.afterImages = some a → 0 < a.length →
        (data.beforeImages = none ∨ data.beforeImages = some []) →
        (buildUpdateData SRStatus.IN_PROGRESS data now).beforeImages
            = some (some (serializeImages a))
          ∧ (buildUpdateData SRStatus.IN_PROGRESS data now).afterImages = none)
  ∧ (∀ st b, st ≠ SRStatus.IN_PROGRESS → data.beforeImages = some b → 0 < b.length →
        (buildUpdateData st data now).afterImages = some (some (serializeImages b)))
  ∧ (∀ st a b, data.afterImages = some a → 0 < a.length →
        data.beforeImages = some b → 0 < b.length →
        (if st = SRStatus.IN_PROGRESS then
            (buildUpdateData st data now).beforeImages
         else (buildUpdateData st data now).afterImages)
          = some (some (serializeImages b))) := by
  refine ⟨?_, ?_, ?_⟩
  · intro a ha hlen hb
    rw [buildUpdateData_beforeImages, buildUpdateData_afterImages]
    rcases hb with hb | hb <;> simp [beforeSlot, afterSlot, ha, hb, hlen]
  · intro st b hst hb hlen
    rw [buildUpdateData_afterImages]
    simp [afterSlot, hst, hb, hlen]
  · intro st a b ha hla hb hlb
    by_cases hst : st = SRStatus.IN_PROGRESS
    · rw [if_pos hst, buildUpdateData_beforeImages, hst]
      simp [beforeSlot, hb, hlb]
    · rw [if_neg hst, buildUpdateData_afterImages]
      simp [afterSlot, hst, hb, hlb]

/-- Witness for C10 at concrete inputs. -/
theorem C10_image_destination_selected_by_target_status_witness :
    ((buildUpdateData SRStatus.IN_PROGRESS { afterImages := some ["u1"] } "t0").beforeImages
        = some (some (serializeImages ["u1"]))
      ∧ (buildUpdateData SRStatus.IN_PROGRESS { afterImages := some ["u1"] } "t0").afterImages
        = none)
    ∧ (buildUpdateData SRStatus.COMPLETED { beforeImages := some ["u2"] } "t0").afterImages
        = some (some (serializeImages ["u2"])) := by
  refine ⟨?_, ?_⟩
  · exact (C10_image_destination_selected_by_target_status
      { afterImages := some ["u1"] } "t0").1 ["u1"] rfl (by decide) (Or.inl rfl)
  · exact (C10_image_destination_selected_by_target_status
      { beforeImages := some ["u2"] } "t0").2.1 SRStatus.COMPLETED ["u2"]
      (by decide) rfl (by decide)

/-- Any thrown error leaves the committed store unchanged. -/
theorem updateSRSCommitted_of_error (db : DB) (id : String) (st : SRStatus)
    (user : Actor) (data : StatusUpdateData) (now : String) (fault : Bool) (e : Err)
    (h : updateServiceRequestStatus db id st user data now fault = .error e) :
    updateServiceRequestStatusCommitted db id st user data now fault = db := by
  unfold updateServiceRequestStatusCommitted
  rw [h]

/-- Claim C5: a transition to PAYMENT_PENDING succeeds only when the stored
`requiresPayment` flag is true and the payload carries a non-empty
completion-images (`afterImages`) list; when the flag is false or the images
are absent or empty, the call throws `BadRequest` and the committed store is
unchanged. -/
theorem C5_payment_pending_preconditions
    (db : DB) (id : String) (user : Actor) (data : StatusUpdateData) (now : String)
    (sr : SRRow)
    (hfind : db.serviceRequests.find? (fun r => r.id == id) = some sr) :
    (∀ db', updateServiceRequestStatus db id SRStatus.PAYMENT_PENDING user data now false
          = .ok db' →
        sr.requirePayment = true ∧ imagesEmpty data.afterImages = false)
  ∧ ((sr.requirePayment = false ∨ imagesEmpty data.afterImages = true) →
      ∃ msg, updateServiceRequestStatus db id SRStatus.PAYMENT_PENDING user data now false
            = .error (.badRequest msg)
        ∧ updateServiceRequestStatusCommitted db id SRStatus.PAYMENT_PENDING user data now false
            = db) := by
  have hch := updateSRS_char db id SRStatus.PAYMENT_PENDING user data now false sr hfind
  by_cases hmem : SRStatus.PAYMENT_PENDING ∈ validTransitions sr.status
  · rw [if_pos hmem] at hch
    constructor
    · intro db' hok
      rw [hch] at hok
      by_cases hp : sr.requirePayment
      · by_cases hi : imagesEmpty data.afterImages
        · simp [validateStatusChange, hp, hi] at hok
        · exact ⟨hp, by simpa using hi⟩
      · have hpf : sr.requirePayment = false := by simpa using hp
        simp [validateStatusChange, hpf] at hok
    · intro hbad
      by_cases hp : sr.requirePayment
      · rcases hbad with hpf | hi
        · rw [hp] at hpf; cases hpf
        · have herr : updateServiceRequestStatus db id SRStatus.PAYMENT_PENDING
              user data now false
              = .error (.badRequest "Completion images are required before requesting payment") := by
            rw [hch]; simp [validateStatusChange, hp, hi]
          exact ⟨_, herr, updateSRSCommitted_of_error _ _ _ _ _ _ _ _ herr⟩
      · have hpf : sr.requirePayment = false := by simpa using hp
        have herr : updateServiceRequestStatus db id SRStatus.PAYMENT_PENDING
            user data now false
            = .error (.badRequest "This service request does not require payment") := by
          rw [hch]; simp [validateStatusChange, hpf]
        exact ⟨_, herr, updateSRSCommitted_of_error _ _ _ _ _ _ _ _ herr⟩
  · rw [if_neg hmem] at hch
    constructor
    · intro db' hok
      rw [hch] at hok
      cases hok
    · intro _
      exact ⟨invalidTransitionMsg sr.status SRStatus.PAYMENT_PENDING, hch,
        updateSRSCommitted_of_error _ _ _ _ _ _ _ _ hch⟩

/-- Concrete fixture: a GENERAL request in progress that does not require
payment. -/
def srqNoPayInProgress : SRRow :=
  { id := "srq5", status := SRStatus.IN_PROGRESS, type_ := "general",
    requirePayment := false, assignedToId := some "ag1" }

def dbNoPayInProgress : DB := { serviceRequests := [srqNoPayInProgress] }

theorem C5_payment_pending_preconditions_witness :
    (∀ db', updateServiceRequestStatus dbNoPayInProgress "srq5" SRStatus.PAYMENT_PENDING
          actorAdmin { afterImages := some ["u1"] } "t0" false = .ok db' →
        srqNoPayInProgress.requirePayment = true
          ∧ imagesEmpty (some ["u1"] : Option (List String)) = false)
  ∧ ((srqNoPayInProgress.requirePayment = false
        ∨ imagesEmpty (some ["u1"] : Option (List String)) = true) →
      ∃ msg, updateServiceRequestStatus dbNoPayInProgress "srq5" SRStatus.PAYMENT_PENDING
            actorAdmin { afterImages := some ["u1"] } "t0" false
          = .error (.badRequest msg)
        ∧ updateServiceRequestStatusCommitted dbNoPayInProgress "srq5"
            SRStatus.PAYMENT_PENDING actorAdmin { afterImages := some ["u1"] } "t0" false
          = dbNoPayInProgress) :=
  C5_payment_pending_preconditions dbNoPayInProgress "srq5" actorAdmin
    { afterImages := some ["u1"] } "t0" srqNoPayInProgress (by decide)

/-- Concrete fixture: a GENERAL request that requires payment and is in
progress. -/
def srqPayInProgress : SRRow :=
  { id := "srq4", status := SRStatus.IN_PROGRESS, type_ := "general",
    requirePayment := true, assignedToId := some "ag1" }

def dbPayInProgress : DB := { serviceRequests := [srqPayInProgress] }

/-- Counterexample to claim C4 as stated: with `requiresPayment = true` and
status IN_PROGRESS, a COMPLETED call that supplies no images is rejected with
the completion-images `BadRequest`, not with one stating it must go through
PAYMENT_PENDING. -/
theorem C4_counterexample_images_error_first :
    updateServiceRequestStatus dbPayInProgress "srq4" SRStatus.COMPLETED actorAdmin
        {} "t0" false
      = .error (.badRequest "Completion images are required to mark as completed")
    ∧ ("Completion images are required to mark as completed"
        ≠ "Service requests requiring payment must go through PAYMENT_PENDING status first") := by
  constructor
  · rfl
  · decide

/-- Claim C4 amended: with the stored `requiresPayment` flag true and status
IN_PROGRESS, a COMPLETED call is always rejected with a `BadRequest` and the
committed store is unchanged; the error states that the request must go
through PAYMENT_PENDING whenever the request is installation-linked or the
call supplies non-empty `afterImages` (otherwise the completion-images
`BadRequest` fires first). -/
theorem C4_completed_rejected_when_payment_required
    (db : DB) (id : String) (user : Actor) (data : StatusUpdateData) (now : String)
    (sr : SRRow)
    (hfind : db.serviceRequests.find? (fun r => r.id == id) = some sr)
    (hpay : sr.requirePayment = true)
    (hst : sr.status = SRStatus.IN_PROGRESS) :
    (∃ msg, updateServiceRequestStatus db id SRStatus.COMPLETED user data now false
        = .error (.badRequest msg))
  ∧ updateServiceRequestStatusCommitted db id SRStatus.COMPLETED user data now false = db
  ∧ ((truthy sr.installationRequestId = true ∨ imagesEmpty data.afterImages = false) →
      updateServiceRequestStatus db id SRStatus.COMPLETED user data now false
        = .error (.badRequest "Service requests requiring payment must go through PAYMENT_PENDING status first")) := by
  have hch := updateSRS_char db id SRStatus.COMPLETED user data now false sr hfind
  have hmem : SRStatus.COMPLETED ∈ validTransitions sr.status := by
    rw [hst]; decide
  rw [if_pos hmem] at hch
  by_cases h1 : truthy sr.installationRequestId = false ∧ imagesEmpty data.afterImages = true
  · have herr : updateServiceRequestStatus db id SRStatus.COMPLETED user data now false
        = .error (.badRequest "Completion images are required to mark as completed") := by
      rw [hch]; simp [validateStatusChange, h1]
    refine ⟨⟨_, herr⟩, updateSRSCommitted_of_error _ _ _ _ _ _ _ _ herr, ?_⟩
    intro hcase
    rcases hcase with hc | hc
    · rw [hc] at h1; cases h1.1
    · rw [hc] at h1; cases h1.2
  · have herr : updateServiceRequestStatus db id SRStatus.COMPLETED user data now false
        = .error (.badRequest "Service requests requiring payment must go through PAYMENT_PENDING status first") := by
      rw [hch]; simp [validateStatusChange, h1, hpay, hst]
    exact ⟨⟨_, herr⟩, updateSRSCommitted_of_error _ _ _ _ _ _ _ _ herr,
      fun _ => herr⟩

theorem C4_completed_rejected_when_payment_required_witness :
    (∃ msg, updateServiceRequestStatus dbPayInProgress "srq4" SRStatus.COMPLETED actorAdmin
        { afterImages := some ["u1"] } "t0" false = .error (.badRequest msg))
  ∧ updateServiceRequestStatusCommitted dbPayInProgress "srq4" SRStatus.COMPLETED actorAdmin
        { afterImages := some ["u1"] } "t0" false = dbPayInProgress
  ∧ ((truthy srqPayInProgress.installationRequestId = true
        ∨ imagesEmpty (some ["u1"] : Option (List String)) = false) →
      updateServiceRequestStatus dbPayInProgress "srq4" SRStatus.COMPLETED actorAdmin
          { afterImages := some ["u1"] } "t0" false
        = .error (.badRequest "Service requests requiring payment must go through PAYMENT_PENDING status first")) :=
  C4_completed_rejected_when_payment_required dbPayInProgress "srq4" actorAdmin
    { afterImages := some ["u1"] } "t0" srqPayInProgress (by decide) (by decide) (by decide)

/-- The row update of the status transaction preserves row ids, so lookup
after the update returns the updated first match. -/
theorem find?_updateWhere_applySRSet (u : SRSet) (id : String) (l : List SRRow) :
    (updateWhere (fun r => r.id == id) (applySRSet u) l).find? (fun r => r.id == id)
      = (l.find? (fun r => r.id == id)).map (applySRSet u) :=
  find?_updateWhere _ _ _ (fun a h => by simpa [applySRSet] using h)

/-- Extracts the committed transaction state from a successful
`updateServiceRequestStatus` run. -/
theorem updateSRS_ok_elim (db : DB) (id : String) (st : SRStatus) (user : Actor)
    (data : StatusUpdateData) (now : String) (sr : SRRow) (db' : DB)
    (hfind : db.serviceRequests.find? (fun r => r.id == id) = some sr)
    (hok : updateServiceRequestStatus db id st user data now false = .ok db') :
    db' = updateSRSTxState db id st user data now sr
      ∧ st ∈ validTransitions sr.status
      ∧ validateStatusChange sr st data db.payments = none := by
  have hch := updateSRS_char db id st user data now false sr hfind
  rw [hch] at hok
  by_cases hmem : st ∈ validTransitions sr.status
  · rw [if_pos hmem] at hok
    cases hv : validateStatusChange sr st data db.payments with
    | some e => rw [hv] at hok; cases hok
    | none =>
      rw [hv] at hok
      simp only [Bool.false_eq_true, if_false, Except.ok.injEq] at hok
      exact ⟨hok.symm, hmem, rfl⟩
  · rw [if_neg hmem] at hok
    cases hok

/-- The stored `afterImages` text of the identified row after a call, `none`
when the call failed or the row is gone. -/
def storedAfterImages (res : Except Err DB) (id : String) : Option String :=
  match res with
  | .ok d =>
    match d.serviceRequests.find? (fun r => r.id == id) with
    | some r => r.afterImages
    | none => none
  | .error _ => none

/-- Concrete fixture: a scheduled request with prior before-images. -/
def srqScheduled : SRRow :=
  { id := "srq7", status := SRStatus.SCHEDULED, assignedToId := some "ag1",
    beforeImages := some "[\"old\"]" }

def dbScheduled : DB := { serviceRequests := [srqScheduled] }

/-- Counterexample to claim C7 as stated: a successful CANCELLED transition
whose payload carries `afterImages = ["u1"]` stores the serialized array in
the `afterImages` column instead of null. -/
theorem C7_counterexample_payload_survives_cancel :
    storedAfterImages
        (updateServiceRequestStatus dbScheduled "srq7" SRStatus.CANCELLED actorAdmin
          { afterImages := some ["u1"] } "t0" false) "srq7"
      = some "[\"u1\"]"
    ∧ (some "[\"u1\"]" : Option String) ≠ none := by
  constructor
  · rfl
  · decide

/-- Claim C7 amended: a successful transition to CANCELLED always stores null
in `beforeImages`; it stores null in `afterImages` exactly when the payload
supplies no non-empty image array, a non-empty payload `beforeImages` array
being stored (serialized) into `afterImages`, and otherwise a non-empty
payload `afterImages` array being stored there. -/
theorem C7_cancel_clears_images_unless_payload_supplied
    (db : DB) (id : String) (user : Actor) (data : StatusUpdateData) (now : String)
    (sr : SRRow) (db' : DB)
    (hfind : db.serviceRequests.find? (fun r => r.id == id) = some sr)
    (hok : updateServiceRequestStatus db id SRStatus.CANCELLED user data now false
      = .ok db') :
    ∃ sr', db'.serviceRequests.find? (fun r => r.id == id) = some sr'
      ∧ sr'.beforeImages = none
      ∧ ((imagesEmpty data.beforeImages = true ∧ imagesEmpty data.afterImages = true) →
          sr'.afterImages = none)
      ∧ (∀ b, data.beforeImages = some b → 0 < b.length →
          sr'.afterImages = some (serializeImages b))
      ∧ (imagesEmpty data.beforeImages = true →
          ∀ a, data.afterImages = some a → 0 < a.length →
            sr'.afterImages = some (serializeImages a)) := by
  obtain ⟨hdb', -, -⟩ := updateSRS_ok_elim db id SRStatus.CANCELLED user data now sr db'
    hfind hok
  subst hdb'
  refine ⟨applySRSet (buildUpdateData SRStatus.CANCELLED data now) sr, ?_, ?_, ?_, ?_, ?_⟩
  · rw [updateSRSTxState_serviceRequests, find?_updateWhere_applySRSet, hfind]
    rfl
  · have hb := buildUpdateData_beforeImages SRStatus.CANCELLED data now
    simp only [applySRSet, hb]
    simp [beforeSlot]
  · intro hemp
    have ha := buildUpdateData_afterImages SRStatus.CANCELLED data now
    simp only [applySRSet, ha]
    rcases hB : data.beforeImages with _ | b <;> rcases hA : data.afterImages with _ | a <;>
      rw [hB] at hemp <;> rw [hA] at hemp <;>
      simp_all [afterSlot, imagesEmpty]
  · intro b hB hlen
    have ha := buildUpdateData_afterImages SRStatus.CANCELLED data now
    simp only [applySRSet, ha]
    simp [afterSlot, hB, hlen]
  · intro hemp a hA hlen
    have ha := buildUpdateData_afterImages SRStatus.CANCELLED data now
    simp only [applySRSet, ha]
    rcases hB : data.beforeImages with _ | b <;> rw [hB] at hemp <;>
      simp_all [afterSlot, imagesEmpty, hA]

theorem C7_cancel_clears_images_unless_payload_supplied_witness :
    ∃ sr', ((updateSRSTxState dbScheduled "srq7" SRStatus.CANCELLED actorAdmin
          { afterImages := some ["u1"] } "t0" srqScheduled).serviceRequests.find?
            (fun r => r.id == "srq7")) = some sr'
      ∧ sr'.beforeImages = none
      ∧ ((imagesEmpty (none : Option (List String)) = true
            ∧ imagesEmpty (some ["u1"] : Option (List String)) = true) →
          sr'.afterImages = none)
      ∧ (∀ b, (none : Option (List String)) = some b → 0 < b.length →
          sr'.afterImages = some (serializeImages b))
      ∧ (imagesEmpty (none : Option (List String)) = true →
          ∀ a, (some ["u1"] : Option (List String)) = some a → 0 < a.length →
            sr'.afterImages = some (serializeImages a)) := by
  have h := C7_cancel_clears_images_unless_payload_supplied dbScheduled "srq7" actorAdmin
    { afterImages := some ["u1"] } "t0" srqScheduled
    (updateSRSTxState dbScheduled "srq7" SRStatus.CANCELLED actorAdmin
      { afterImages := some ["u1"] } "t0" srqScheduled)
    (by decide) (by rfl)
  exact h

theorem countP_logActionHistory (db : DB) (e : ActionEntry) (q : ActionEntry → Bool) :
    (logActionHistory db e).actionHistory.countP q
      = db.actionHistory.countP q + (if q e then 1 else 0) := by
  simp [logActionHistory, List.countP_append, List.countP_cons]

/-- Audit-entry count after the status-update transaction body: the input
count, plus the service-request entry, plus the subscription entry when
subscription-linked; the synchronizer's entry is counted by no predicate that
requires a present `entityType`. -/
theorem updateSRSTxState_actionHistory_countP (db : DB) (id : String) (st : SRStatus)
    (user : Actor) (data : StatusUpdateData) (now : String) (sr : SRRow)
    (q : ActionEntry → Bool) (hq : ∀ e, e.entityType = none → q e = false) :
    (updateSRSTxState db id st user data now sr).actionHistory.countP q
      = db.actionHistory.countP q
        + (if q (srStatusEntry id sr.status st user) then 1 else 0)
        + (if truthy sr.subscriptionId then
            (if q (subStatusEntry (sr.subscriptionId.getD "") st user) then 1 else 0)
           else 0) := by
  unfold updateSRSTxState
  by_cases h1 : truthy sr.installationRequestId = true <;>
    by_cases h2 : truthy sr.subscriptionId = true <;>
      simp [h1, h2, countP_logActionHistory, sync_actionHistory_countP _ _ _ _ _ hq]

/-- Claim C2: every successful `updateServiceRequestStatus` call appends
exactly one audit entry for the service request, exactly one additional entry
for its subscription exactly when `subscriptionId` is set (and no
subscription-typed entry otherwise), all inside the same transaction as the
status mutation: the same call with a write failure injected after the
service-request update commits nothing — zero new audit entries, zero status
changes. -/
theorem C2_audit_entries_atomic_with_status
    (db : DB) (id : String) (st : SRStatus) (user : Actor) (data : StatusUpdateData)
    (now : String) (sr : SRRow) (db' : DB)
    (hfind : db.serviceRequests.find? (fun r => r.id == id) = some sr)
    (hok : updateServiceRequestStatus db id st user data now false = .ok db') :
    db'.actionHistory.countP (isServiceRequestEntry id)
        = db.actionHistory.countP (isServiceRequestEntry id) + 1
  ∧ (∀ sid, sr.subscriptionId = some sid → sid ≠ "" →
      db'.actionHistory.countP (isSubscriptionEntryFor sid)
        = db.actionHistory.countP (isSubscriptionEntryFor sid) + 1)
  ∧ (truthy sr.subscriptionId = false →
      db'.actionHistory.countP isSubscriptionEntry
        = db.actionHistory.countP isSubscriptionEntry)
  ∧ updateServiceRequestStatus db id st user data now true
      = .error (.serverError "transaction aborted")
  ∧ updateServiceRequestStatusCommitted db id st user data now true = db := by
  obtain ⟨hdb', hmem, hv⟩ := updateSRS_ok_elim db id st user data now sr db' hfind hok
  subst hdb'
  have hfault : updateServiceRequestStatus db id st user data now true
      = .error (.serverError "transaction aborted") := by
    have hch := updateSRS_char db id st user data now true sr hfind
    rw [if_pos hmem, hv] at hch
    simpa using hch
  refine ⟨?_, ?_, ?_, hfault, updateSRSCommitted_of_error _ _ _ _ _ _ _ _ hfault⟩
  · rw [updateSRSTxState_actionHistory_countP db id st user data now sr
      (isServiceRequestEntry id) (fun e he => by simp [isServiceRequestEntry, he])]
    have h1 : isServiceRequestEntry id (srStatusEntry id sr.status st user) = true := by
      simp [isServiceRequestEntry, srStatusEntry]
    have h2 : isServiceRequestEntry id (subStatusEntry (sr.subscriptionId.getD "") st user)
        = false := by
      simp [isServiceRequestEntry, subStatusEntry]
    rw [h1]
    by_cases hs : truthy sr.subscriptionId = true <;> simp [hs, h2]
  · intro sid hsid hne
    have htr : truthy sr.subscriptionId = true := by
      simp [truthy, hsid, hne]
    rw [updateSRSTxState_actionHistory_countP db id st user data now sr
      (isSubscriptionEntryFor sid) (fun e he => by simp [isSubscriptionEntryFor, he])]
    have h1 : isSubscriptionEntryFor sid (srStatusEntry id sr.status st user) = false := by
      simp [isSubscriptionEntryFor, srStatusEntry]
    have h2 : isSubscriptionEntryFor sid
        (subStatusEntry (sr.subscriptionId.getD "") st user) = true := by
      simp [isSubscriptionEntryFor, subStatusEntry, hsid]
    rw [h1, htr, h2]
    simp
  · intro hs
    rw [updateSRSTxState_actionHistory_countP db id st user data now sr
      isSubscriptionEntry (fun e he => by simp [isSubscriptionEntry, he])]
    have h1 : isSubscriptionEntry (srStatusEntry id sr.status st user) = false := by
      simp [isSubscriptionEntry, srStatusEntry]
    rw [h1, hs]
    simp

/-- Concrete fixture: a freshly created, subscription-linked request. -/
def srqCreatedSub : SRRow :=
  { id := "srq2", status := SRStatus.CREATED, subscriptionId := some "sub1" }

def dbCreatedSub : DB := { serviceRequests := [srqCreatedSub] }

theorem C2_audit_entries_atomic_with_status_witness :
    (updateSRSTxState dbCreatedSub "srq2" SRStatus.ASSIGNED actorAdmin
          { agentId := some "ag2" } "t1" srqCreatedSub).actionHistory.countP
        (isServiceRequestEntry "srq2")
        = dbCreatedSub.actionHistory.countP (isServiceRequestEntry "srq2") + 1
  ∧ (∀ sid, srqCreatedSub.subscriptionId = some sid → sid ≠ "" →
      (updateSRSTxState dbCreatedSub "srq2" SRStatus.ASSIGNED actorAdmin
          { agentId := some "ag2" } "t1" srqCreatedSub).actionHistory.countP
        (isSubscriptionEntryFor sid)
        = dbCreatedSub.actionHistory.countP (isSubscriptionEntryFor sid) + 1)
  ∧ (truthy srqCreatedSub.subscriptionId = false →
      (updateSRSTxState dbCreatedSub "srq2" SRStatus.ASSIGNED actorAdmin
          { agentId := some "ag2" } "t1" srqCreatedSub).actionHistory.countP
        isSubscriptionEntry
        = dbCreatedSub.actionHistory.countP isSubscriptionEntry)
  ∧ updateServiceRequestStatus dbCreatedSub "srq2" SRStatus.ASSIGNED actorAdmin
      { agentId := some "ag2" } "t1" true
      = .error (.serverError "transaction aborted")
  ∧ updateServiceRequestStatusCommitted dbCreatedSub "srq2" SRStatus.ASSIGNED actorAdmin
      { agentId := some "ag2" } "t1" true = dbCreatedSub :=
  C2_audit_entries_atomic_with_status dbCreatedSub "srq2" SRStatus.ASSIGNED actorAdmin
    { agentId := some "ag2" } "t1" srqCreatedSub
    (updateSRSTxState dbCreatedSub "srq2" SRStatus.ASSIGNED actorAdmin
      { agentId := some "ag2" } "t1" srqCreatedSub)
    (by decide) (by rfl)

/-- Claim C8: inside the caller's transaction the installation synchronizer
maps the service-request status exactly as IN_PROGRESS →
INSTALLATION_IN_PROGRESS, PAYMENT_PENDING → PAYMENT_PENDING, COMPLETED →
INSTALLATION_COMPLETED, CANCELLED → CANCELLED (also clearing the stored
`razorpayPaymentLink`/`razorpaySubscriptionId`), SCHEDULED →
INSTALLATION_SCHEDULED, writing one audit entry; for the unmapped source
statuses CREATED and ASSIGNED it performs no write at all. -/
theorem C8_installation_sync_mapping (db : DB) (irId : String) (user : Actor)
    (ir : IRRow)
    (hfind : db.installationRequests.find? (fun r => r.id == irId) = some ir) :
    ((syncInstallationRequestStatusInTransaction db irId SRStatus.IN_PROGRESS
          user).installationRequests.find? (fun r => r.id == irId)
        = some { ir with status := IRStatus.INSTALLATION_IN_PROGRESS }
      ∧ (syncInstallationRequestStatusInTransaction db irId SRStatus.IN_PROGRESS
          user).actionHistory.length = db.actionHistory.length + 1)
  ∧ ((syncInstallationRequestStatusInTransaction db irId SRStatus.PAYMENT_PENDING
          user).installationRequests.find? (fun r => r.id == irId)
        = some { ir with status := IRStatus.PAYMENT_PENDING }
      ∧ (syncInstallationRequestStatusInTransaction db irId SRStatus.PAYMENT_PENDING
          user).actionHistory.length = db.actionHistory.length + 1)
  ∧ ((syncInstallationRequestStatusInTransaction db irId SRStatus.COMPLETED
          user).installationRequests.find? (fun r => r.id == irId)
        = some { ir with status := IRStatus.INSTALLATION_COMPLETED }
      ∧ (syncInstallationRequestStatusInTransaction db irId SRStatus.COMPLETED
          user).actionHistory.length = db.actionHistory.length + 1)
  ∧ ((syncInstallationRequestStatusInTransaction db irId SRStatus.CANCELLED
          user).installationRequests.find? (fun r => r.id == irId)
        = some { ir with status := IRStatus.CANCELLED, razorpayPaymentLink := none,
                         razorpaySubscriptionId := none }
      ∧ (syncInstallationRequestStatusInTransaction db irId SRStatus.CANCELLED
          user).actionHistory.length = db.actionHistory.length + 1)
  ∧ ((syncInstallationRequestStatusInTransaction db irId SRStatus.SCHEDULED
          user).installationRequests.find? (fun r => r.id == irId)
        = some { ir with status := IRStatus.INSTALLATION_SCHEDULED }
      ∧ (syncInstallationRequestStatusInTransaction db irId SRStatus.SCHEDULED
          user).actionHistory.length = db.actionHistory.length + 1)
  ∧ syncInstallationRequestStatusInTransaction db irId SRStatus.CREATED user = db
  ∧ syncInstallationRequestStatusInTransaction db irId SRStatus.ASSIGNED user = db := by
  have hupd : ∀ (g : IRRow → IRRow), (∀ a, (g a).id = a.id) →
      (updateWhere (fun r => r.id == irId) g db.installationRequests).find?
          (fun r => r.id == irId) = some (g ir) := by
    intro g hg
    rw [find?_updateWhere _ _ _ (fun a h => by rw [hg]; exact h), hfind]
    rfl
  refine ⟨⟨?_, ?_⟩, ⟨?_, ?_⟩, ⟨?_, ?_⟩, ⟨?_, ?_⟩, ⟨?_, ?_⟩, rfl, rfl⟩ <;>
    simp only [syncInstallationRequestStatusInTransaction, syncTarget, logActionHistory] <;>
    first
      | (exact hupd _ (fun a => rfl))
      | simp

/-- Concrete fixture: an installation request holding gateway identifiers. -/
def irPending : IRRow :=
  { id := "ir1", status := IRStatus.PAYMENT_PENDING,
    razorpaySubscriptionId := some "gwsub1",
    razorpayPaymentLink := some "https://rzp/link" }

def dbIrOnly : DB := { installationRequests := [irPending] }

theorem C8_installation_sync_mapping_witness :
    ((syncInstallationRequestStatusInTransaction dbIrOnly "ir1" SRStatus.IN_PROGRESS
          actorAdmin).installationRequests.find? (fun r => r.id == "ir1")
        = some { irPending with status := IRStatus.INSTALLATION_IN_PROGRESS }
      ∧ (syncInstallationRequestStatusInTransaction dbIrOnly "ir1" SRStatus.IN_PROGRESS
          actorAdmin).actionHistory.length = dbIrOnly.actionHistory.length + 1)
  ∧ ((syncInstallationRequestStatusInTransaction dbIrOnly "ir1" SRStatus.PAYMENT_PENDING
          actorAdmin).installationRequests.find? (fun r => r.id == "ir1")
        = some { irPending with status := IRStatus.PAYMENT_PENDING }
      ∧ (syncInstallationRequestStatusInTransaction dbIrOnly "ir1" SRStatus.PAYMENT_PENDING
          actorAdmin).actionHistory.length = dbIrOnly.actionHistory.length + 1)
  ∧ ((syncInstallationRequestStatusInTransaction dbIrOnly "ir1" SRStatus.COMPLETED
          actorAdmin).installationRequests.find? (fun r => r.id == "ir1")
        = some { irPending with status := IRStatus.INSTALLATION_COMPLETED }
      ∧ (syncInstallationRequestStatusInTransaction dbIrOnly "ir1" SRStatus.COMPLETED
          actorAdmin).actionHistory.length = dbIrOnly.actionHistory.length + 1)
  ∧ ((syncInstallationRequestStatusInTransaction dbIrOnly "ir1" SRStatus.CANCELLED
          actorAdmin).installationRequests.find? (fun r => r.id == "ir1")
        = some { irPending with status := IRStatus.CANCELLED, razorpayPaymentLink := none, razorpaySubscriptionId := none }
      ∧ (syncInstallationRequestStatusInTransaction dbIrOnly "ir1" SRStatus.CANCELLED
          actorAdmin).actionHistory.length = dbIrOnly.actionHistory.length + 1)
  ∧ ((syncInstallationRequestStatusInTransaction dbIrOnly "ir1" SRStatus.SCHEDULED
          actorAdmin).installationRequests.find? (fun r => r.id == "ir1")
        = some { irPending with status := IRStatus.INSTALLATION_SCHEDULED }
      ∧ (syncInstallationRequestStatusInTransaction dbIrOnly "ir1" SRStatus.SCHEDULED
          actorAdmin).actionHistory.length = dbIrOnly.actionHistory.length + 1)
  ∧ syncInstallationRequestStatusInTransaction dbIrOnly "ir1" SRStatus.CREATED actorAdmin
      = dbIrOnly
  ∧ syncInstallationRequestStatusInTransaction dbIrOnly "ir1" SRStatus.ASSIGNED actorAdmin
      = dbIrOnly :=
  C8_installation_sync_mapping dbIrOnly "ir1" actorAdmin irPending (by decide)

theorem buildUpdateData_status (st : SRStatus) (data : StatusUpdateData) (now : String) :
    (buildUpdateData st data now).status = st := by
  cases st <;> rcases hB : data.beforeImages with _ | l <;>
    rcases hA : data.afterImages with _ | m <;>
    simp [buildUpdateData, setImageField, hB, hA, apply_ite SRSet.status]

theorem buildUpdateData_assignedToId (st : SRStatus) (data : StatusUpdateData)
    (now : String) :
    (buildUpdateData st data now).assignedToId
      = (if truthy data.agentId = true then data.agentId else none) := by
  cases st <;> rcases hB : data.beforeImages with _ | l <;>
    rcases hA : data.afterImages with _ | m <;>
    simp [buildUpdateData, setImageField, hB, hA, apply_ite SRSet.assignedToId]

theorem applySRSet_status (u : SRSet) (r : SRRow) :
    (applySRSet u r).status = u.status := rfl

theorem applySRSet_assignedToId (u : SRSet) (r : SRRow) :
    (applySRSet u r).assignedToId
      = (match u.assignedToId with | some a => some a | none => r.assignedToId) := rfl

theorem truthy_isSome (x : Option String) (h : truthy x = true) : x.isSome = true := by
  cases x with
  | none => simp [truthy] at h
  | some s => rfl

theorem all_updateWhere_mem {α : Type} (q p : α → Bool) (g : α → α) (l : List α)
    (hl : l.all q = true)
    (hg : ∀ a, a ∈ l → p a = true → q (g a) = true) :
    (updateWhere p g l).all q = true := by
  induction l with
  | nil => rfl
  | cons a t ih =>
    simp only [List.all_cons, Bool.and_eq_true] at hl
    have ht := ih hl.2 (fun b hb hpb => hg b (List.mem_cons_of_mem a hb) hpb)
    by_cases h : p a = true
    · simp only [updateWhere, List.map_cons, if_pos h, List.all_cons, Bool.and_eq_true]
      exact ⟨hg a (List.mem_cons_self a t) h, ht⟩
    · simp only [updateWhere, List.map_cons, if_neg h, List.all_cons, Bool.and_eq_true]
      exact ⟨hl.1, ht⟩

/-- Row-level preservation: a validated status transition keeps the
assigned-agent invariant on the transitioned row. -/
theorem applySRSet_preserves_invariant (st : SRStatus) (data : StatusUpdateData)
    (now : String) (sr : SRRow) (ps : List PayRow)
    (hmem : st ∈ validTransitions sr.status)
    (hv : validateStatusChange sr st data ps = none)
    (hsrinv : srInvariant sr = true) :
    srInvariant (applySRSet (buildUpdateData st data now) sr) = true := by
  have hstat : (applySRSet (buildUpdateData st data now) sr).status = st := by
    rw [applySRSet_status, buildUpdateData_status]
  have hass := applySRSet_assignedToId (buildUpdateData st data now) sr
  rw [buildUpdateData_assignedToId] at hass
  have hkeep : truthy sr.assignedToId = true →
      (applySRSet (buildUpdateData st data now) sr).assignedToId.isSome = true := by
    intro htr
    rw [hass]
    by_cases hag : truthy data.agentId = true
    · rw [if_pos hag]
      rcases hx : data.agentId with _ | s
      · rw [hx] at hag; simp [truthy] at hag
      · rfl
    · rw [if_neg hag]
      simpa using truthy_isSome _ htr
  have hprev : sr.status = SRStatus.SCHEDULED ∨ sr.status = SRStatus.IN_PROGRESS
      ∨ sr.status = SRStatus.PAYMENT_PENDING →
      (applySRSet (buildUpdateData st data now) sr).assignedToId.isSome = true := by
    intro hcur
    have hsome : sr.assignedToId.isSome = true := by
      rcases hcur with h | h | h <;>
        simp [srInvariant, h] at hsrinv <;> exact hsrinv
    rw [hass]
    by_cases hag : truthy data.agentId = true
    · rw [if_pos hag]
      rcases hx : data.agentId with _ | s
      · rw [hx] at hag; simp [truthy] at hag
      · rfl
    · rw [if_neg hag]
      simpa using hsome
  cases st with
  | CREATED =>
    exfalso
    cases h : sr.status <;> rw [h] at hmem <;> simp [validTransitions] at hmem
  | CANCELLED =>
    simp [srInvariant, hstat]
  | ASSIGNED =>
    have hag : truthy data.agentId = true := by
      by_cases h : truthy data.agentId = true
      · exact h
      · have hf : truthy data.agentId = false := by simpa using h
        simp [validateStatusChange, hf] at hv
    have hsome : (applySRSet (buildUpdateData SRStatus.ASSIGNED data now)
        sr).assignedToId.isSome = true := by
      rw [hass, if_pos hag]
      rcases hx : data.agentId with _ | s
      · rw [hx] at hag; simp [truthy] at hag
      · rfl
    simp [srInvariant, hstat, hsome]
  | SCHEDULED =>
    have htr : truthy sr.assignedToId = true := by
      by_cases h : truthy sr.assignedToId = true
      · exact h
      · have hf : truthy sr.assignedToId = false := by simpa using h
        simp [validateStatusChange, hf] at hv
    simp [srInvariant, hstat, hkeep htr]
  | IN_PROGRESS =>
    have hcur : sr.status = SRStatus.SCHEDULED := by
      cases h : sr.status <;> rw [h] at hmem <;> simp [validTransitions] at hmem <;> rfl
    simp [srInvariant, hstat, hprev (Or.inl hcur)]
  | PAYMENT_PENDING =>
    have hcur : sr.status = SRStatus.IN_PROGRESS := by
      cases h : sr.status <;> rw [h] at hmem <;> simp [validTransitions] at hmem <;> rfl
    simp [srInvariant, hstat, hprev (Or.inr (Or.inl hcur))]
  | COMPLETED =>
    have hcur : sr.status = SRStatus.IN_PROGRESS
        ∨ sr.status = SRStatus.PAYMENT_PENDING := by
      cases h : sr.status <;> rw [h] at hmem <;> simp [validTransitions] at hmem
      · exact Or.inl rfl
      · exact Or.inr rfl
    rcases hcur with h | h
    · simp [srInvariant, hstat, hprev (Or.inr (Or.inl h))]
    · simp [srInvariant, hstat, hprev (Or.inr (Or.inr h))]

/-- The stored-invariant verdict after a call: `none` when the call threw. -/
def invariantAfter (res : Except Err DB) : Option Bool :=
  match res with
  | .ok d => some (dbSRInvariant d)
  | .error _ => none

/-- The committed state of a call result, given the pre-call state. -/
def committedOr (db : DB) (res : Except Err DB) : DB :=
  match res with
  | .ok d => d
  | .error _ => db

/-- Concrete fixtures for the reactivation/creation scenarios. -/
def irForCreate : IRRow := { id := "ir9", status := IRStatus.SUBMITTED }

def srqExistingInstall : SRRow :=
  { id := "srq9", status := SRStatus.CREATED, installationRequestId := some "ir9",
    type_ := "installation", requirePayment := true }

def dbExistingInstall : DB :=
  { serviceRequests := [srqExistingInstall], installationRequests := [irForCreate] }

/-- Counterexample to claim C9 as stated: on a store satisfying the invariant,
calling `createInstallationServiceRequest` without an `assignedToId` while an
installation service request already exists commits that row as SCHEDULED
with a null `assignedToId`, violating the invariant. -/
theorem C9_counterexample_existing_branch_breaks_invariant :
    dbSRInvariant dbExistingInstall = true
  ∧ invariantAfter (createInstallationServiceRequest dbExistingInstall
      { installationRequestId := "ir9", description := "re-run" } actorAdmin "srqA" "t0")
      = some false := by
  constructor
  · decide
  · rfl

/-- Claim C9 amended: the invariant "assignedToId non-null whenever status ∉
{CREATED, CANCELLED}" is preserved by every successful
`updateServiceRequestStatus` (on a store whose matched id is unique),
`assignServiceAgent` and `assignServiceRequestToSelf` call, and by
`createInstallationServiceRequest` provided no installation service request
pre-exists or an `assignedToId` is supplied; the pre-existing-row branch
without an agent id is the one violating case. -/
theorem C9_assigned_agent_invariant_preserved :
    (∀ db id st user data now sr db',
        db.serviceRequests.find? (fun r => r.id == id) = some sr →
        (∀ r, r ∈ db.serviceRequests → r.id = id → r = sr) →
        updateServiceRequestStatus db id st user data now false = .ok db' →
        dbSRInvariant db = true → dbSRInvariant db' = true)
  ∧ (∀ db id aid user now db',
        assignServiceAgent db id aid user now = .ok db' →
        dbSRInvariant db = true → dbSRInvariant db' = true)
  ∧ (∀ db id user now db',
        assignServiceRequestToSelf db id user now = .ok db' →
        dbSRInvariant db = true → dbSRInvariant db' = true)
  ∧ (∀ db data user newId now db',
        (db.serviceRequests.find? (fun r =>
            r.installationRequestId == some data.installationRequestId
              && r.type_ == "installation") = none
          ∨ truthy data.assignedToId = true) →
        createInstallationServiceRequest db data user newId now = .ok db' →
        dbSRInvariant db = true → dbSRInvariant db' = true) := by
  refine ⟨?_, ?_, ?_, ?_⟩
  · intro db id st user data now sr db' hfind hU hok hinv
    obtain ⟨hdb', hmem, hv⟩ := updateSRS_ok_elim db id st user data now sr db' hfind hok
    subst hdb'
    unfold dbSRInvariant
    rw [updateSRSTxState_serviceRequests]
    apply all_updateWhere_mem _ _ _ _ hinv
    intro r hr hpr
    have hrid : r.id = id := by simpa using hpr
    have hreq : r = sr := hU r hr hrid
    subst hreq
    exact applySRSet_preserves_invariant st data now r db.payments hmem hv
      (List.all_eq_true.mp hinv r hr)
  · intro db id aid user now db' hok hinv
    unfold assignServiceAgent at hok
    cases hfind : db.serviceRequests.find? (fun r => r.id == id) with
    | none => rw [hfind] at hok; cases hok
    | some sr =>
      rw [hfind] at hok
      dsimp only at hok
      cases hv : assignServiceAgentValidate db sr aid user with
      | some e => rw [hv] at hok; cases hok
      | none =>
        rw [hv] at hok
        simp only [Except.ok.injEq] at hok
        subst hok
        unfold dbSRInvariant logActionHistory
        apply all_updateWhere _ _ _ _ hinv
        intro a _
        rfl
  · intro db id user now db' hok hinv
    unfold assignServiceRequestToSelf at hok
    cases hfind : db.serviceRequests.find? (fun r => r.id == id) with
    | none => rw [hfind] at hok; cases hok
    | some sr =>
      rw [hfind] at hok
      dsimp only at hok
      cases hv : assignToSelfValidate db sr user with
      | some e => rw [hv] at hok; cases hok
      | none =>
        rw [hv] at hok
        simp only [Except.ok.injEq] at hok
        subst hok
        unfold dbSRInvariant logActionHistory
        apply all_updateWhere _ _ _ _ hinv
        intro a _
        rfl
  · intro db data user newId now db' hbranch hok hinv
    unfold createInstallationServiceRequest at hok
    cases hir : db.installationRequests.find? (fun r => r.id == data.installationRequestId) with
    | none => rw [hir] at hok; cases hok
    | some ir =>
      rw [hir] at hok
      dsimp only at hok
      cases hex : db.serviceRequests.find? (fun r =>
          r.installationRequestId == some data.installationRequestId
            && r.type_ == "installation") with
      | some existing =>
        rw [hex] at hok
        dsimp only at hok
        have htr : truthy data.assignedToId = true := by
          rcases hbranch with h | h
          · rw [h] at hex; cases hex
          · exact h
        simp only [Except.ok.injEq] at hok
        subst hok
        unfold dbSRInvariant logActionHistory
        apply all_updateWhere _ _ _ _ hinv
        intro a _
        rcases hx : data.assignedToId with _ | s
        · rw [hx] at htr; simp [truthy] at htr
        · simp [srInvariant, hx]
      | none =>
        rw [hex] at hok
        dsimp only at hok
        cases hv : createISRValidate db ir data user with
        | some e => rw [hv] at hok; cases hok
        | none =>
          rw [hv] at hok
          simp only [Except.ok.injEq] at hok
          subst hok
          unfold dbSRInvariant logActionHistory
          rw [all_append_bool]
          have hall : db.serviceRequests.all srInvariant = true := hinv
          have hnew : srInvariant
              { id := newId
                subscriptionId := none
                customerId := ir.customerId
                productId := ir.productId
                installationRequestId := some data.installationRequestId
                type_ := "installation"
                description := data.description
                images := none
                status := if truthy data.assignedToId = true then SRStatus.SCHEDULED
                          else SRStatus.CREATED
                assignedToId := data.assignedToId
                franchiseId := some ir.franchiseId
                scheduledDate := data.scheduledDate
                completedDate := none
                beforeImages := none
                afterImages := none
                requirePayment := true
                createdAt := now
                updatedAt := now } = true := by
            by_cases htr : truthy data.assignedToId = true
            · rcases hx : data.assignedToId with _ | s
              · rw [hx] at htr; simp [truthy] at htr
              · simp [srInvariant, htr, hx]
            · have hf : truthy data.assignedToId = false := by simpa using htr
              simp [srInvariant, hf]
          rw [hall]
          simp [hnew]

theorem C9_assigned_agent_invariant_preserved_witness :
    dbSRInvariant (committedOr dbCreatedSub
        (updateServiceRequestStatus dbCreatedSub "srq2" SRStatus.ASSIGNED actorAdmin
          { agentId := some "ag2" } "t1" false)) = true := by
  have h := C9_assigned_agent_invariant_preserved.1 dbCreatedSub "srq2" SRStatus.ASSIGNED
    actorAdmin { agentId := some "ag2" } "t1" srqCreatedSub
    (committedOr dbCreatedSub
      (updateServiceRequestStatus dbCreatedSub "srq2" SRStatus.ASSIGNED actorAdmin
        { agentId := some "ag2" } "t1" false))
    (by decide) (by intro r hr _; simpa [dbCreatedSub] using hr) (by rfl) (by decide)
  exact h

/-- Gateway-read events. -/
def isGwRead : Ev → Bool
  | Ev.gwFetchSub => true
  | Ev.gwListInvoices => true
  | _ => false

/-- The claim's ordering: every gateway read happens strictly before the
transaction opens (no gateway read at or after the first `txBegin`). -/
def gwReadsPrecedeTxBegin : List Ev → Bool
  | [] => true
  | Ev.txBegin :: rest => rest.all (fun e => !(isGwRead e))
  | _ :: rest => gwReadsPrecedeTxBegin rest

/-- No gateway read occurs before the transaction opens. -/
def noGwBeforeTxBegin : List Ev → Bool
  | [] => true
  | Ev.txBegin :: _ => true
  | Ev.gwFetchSub :: _ => false
  | Ev.gwListInvoices :: _ => false
  | _ :: r => noGwBeforeTxBegin r

/-- No gateway read occurs once the first local write has happened. -/
def noGwAfterFirstWrite : List Ev → Bool
  | [] => true
  | Ev.dbWrite :: r => r.all (fun e => !(isGwRead e))
  | _ :: r => noGwAfterFirstWrite r

/-- Concrete reconciliation fixtures: a PAYMENT_PENDING installation-linked
request whose gateway subscription is active with one paid invoice. -/
def srqPayPending : SRRow :=
  { id := "srqP", status := SRStatus.PAYMENT_PENDING, type_ := "installation",
    installationRequestId := some "irP", requirePayment := true,
    assignedToId := some "ag1" }

def irPayPending : IRRow :=
  { id := "irP", status := IRStatus.PAYMENT_PENDING, customerId := "cust1",
    productId := "prod1", franchiseId := "fr1",
    razorpaySubscriptionId := some "gwsub1" }

def prodDemo : ProductRow :=
  { id := "prod1", name := "AquaPure", rentPrice := 500, deposit := 1500 }

def dbRefresh : DB :=
  { serviceRequests := [srqPayPending], installationRequests := [irPayPending],
    products := [prodDemo] }

def gwDemo : Gateway :=
  { subs := fun _ => { id := "gwsub1", status := "active" }
    invoicesFor := fun _ => [{ status := "paid", payment_id := "payX", amount := 50000 }] }

def freshDemo : FreshIds :=
  { paymentId := "payRow1", subId := "subRow1", connectId := "CONN1" }

/-- Counterexample to claim C6 as stated: on a concrete reconciliation run the
trace opens the transaction first and performs both gateway reads inside it,
so the gateway read does not precede the transaction. -/
theorem C6_counterexample_gateway_read_inside_tx :
    gwReadsPrecedeTxBegin
        (refreshPaymentStatus dbRefresh gwDemo "srqP" actorAdmin freshDemo "t0").2
      = false
    ∧ (refreshPaymentStatus dbRefresh gwDemo "srqP" actorAdmin freshDemo "t0").2
      = [Ev.txBegin, Ev.gwFetchSub, Ev.gwListInvoices,
         Ev.dbWrite, Ev.dbWrite, Ev.dbWrite, Ev.dbWrite, Ev.dbWrite,
         Ev.dbWrite, Ev.dbWrite, Ev.dbWrite, Ev.dbWrite, Ev.txCommit] := by
  constructor
  · rfl
  · rfl

/- Trace-shape lemmas for the reconciliation paths. -/

theorem refreshRepairPath_trace (db : DB) (srId irId : String) (user : Actor)
    (fresh : FreshIds) (now : String) (gwSub : GwSubscription) (ep : PayRow) :
    ∃ k, (refreshRepairPath db srId irId user fresh now gwSub ep).2
      = List.replicate k Ev.dbWrite := by
  unfold refreshRepairPath
  split
  · exact ⟨0, rfl⟩
  · split
    · exact ⟨0, rfl⟩
    · split
      · exact ⟨0, rfl⟩
      · dsimp only
        by_cases h : (ep.subscriptionId == none) = true
        · refine ⟨5, ?_⟩
          simp only [if_pos h]
          rfl
        · refine ⟨4, ?_⟩
          simp only [if_neg h]
          rfl

theorem refreshMainRest_trace (db1 : DB) (srId irId paymentId : String)
    (user : Actor) (fresh : FreshIds) (now : String) (gwSub : GwSubscription) :
    ∃ k, (refreshMainRest db1 srId irId paymentId user fresh now gwSub).2
      = List.replicate k Ev.dbWrite := by
  unfold refreshMainRest
  split
  · exact ⟨5, rfl⟩
  · split
    · exact ⟨5, rfl⟩
    · split
      · exact ⟨1, rfl⟩
      · exact ⟨9, rfl⟩

theorem refreshMainPath_trace (db : DB) (srId irId : String) (ep? : Option PayRow)
    (user : Actor) (fresh : FreshIds) (now : String) (gwSub : GwSubscription)
    (inv : GwInvoice) :
    ∃ k, (refreshMainPath db srId irId ep? user fresh now gwSub inv).2
      = List.replicate k Ev.dbWrite := by
  unfold refreshMainPath
  cases ep? <;> exact refreshMainRest_trace _ _ _ _ _ _ _ _

theorem refreshApplyPayment_trace (db : DB) (srId irId : String) (user : Actor)
    (fresh : FreshIds) (now : String) (gwSub : GwSubscription) (inv : GwInvoice) :
    ∃ k, (refreshApplyPayment db srId irId user fresh now gwSub inv).2
      = List.replicate k Ev.dbWrite := by
  unfold refreshApplyPayment
  dsimp only
  split
  · split
    · exact refreshRepairPath_trace _ _ _ _ _ _ _ _
    · exact refreshMainPath_trace _ _ _ _ _ _ _ _ _
  · exact refreshMainPath_trace _ _ _ _ _ _ _ _ _

theorem refreshTxBody_trace (db : DB) (gw : Gateway) (srId : String) (sr : SRRow)
    (irId gwSubId : String) (user : Actor) (fresh : FreshIds) (now : String) :
    (∃ k, (refreshTxBody db gw srId sr irId gwSubId user fresh now).2
        = Ev.gwFetchSub :: Ev.gwListInvoices :: List.replicate k Ev.dbWrite)
  ∨ (refreshTxBody db gw srId sr irId gwSubId user fresh now).2 = [Ev.gwFetchSub] := by
  unfold refreshTxBody
  dsimp only
  split
  · split
    · split
      · left
        obtain ⟨k, hk⟩ := refreshApplyPayment_trace db srId irId user fresh now
          (gw.subs gwSubId) _
        refine ⟨k, ?_⟩
        dsimp only
        rw [hk]
        rfl
      · left; exact ⟨0, rfl⟩
    · left; exact ⟨0, rfl⟩
  · right; rfl

theorem all_nonGw_replicate_append (k : Nat) (e : Ev) (he : isGwRead e = false) :
    (List.replicate k Ev.dbWrite ++ [e]).all (fun x => !(isGwRead x)) = true := by
  induction k with
  | zero => simp [he]
  | succ n ih =>
    simp only [List.replicate_succ, List.cons_append, List.all_cons, ih]
    rfl

theorem noGwAfterFirstWrite_replicate_append (k : Nat) (e : Ev)
    (he : isGwRead e = false) :
    noGwAfterFirstWrite (List.replicate k Ev.dbWrite ++ [e]) = true := by
  cases k with
  | zero =>
    cases e <;> first | rfl | (exact absurd he (by decide))
  | succ n =>
    have : noGwAfterFirstWrite (Ev.dbWrite :: (List.replicate n Ev.dbWrite ++ [e]))
        = true := by
      show (List.replicate n Ev.dbWrite ++ [e]).all (fun x => !(isGwRead x)) = true
      exact all_nonGw_replicate_append n e he
    simpa [List.replicate_succ] using this

/-- The transaction wrapper keeps gateway reads inside the transaction and
before every local write, for any body whose trace is the gateway reads
followed by writes. -/
theorem refreshTxRun_trace_ok (body : Except Err DB × List Ev)
    (htr : (∃ k, body.2 = Ev.gwFetchSub :: Ev.gwListInvoices
              :: List.replicate k Ev.dbWrite)
          ∨ body.2 = [Ev.gwFetchSub]) :
    noGwBeforeTxBegin (refreshTxRun body).2 = true
  ∧ noGwAfterFirstWrite (refreshTxRun body).2 = true := by
  obtain ⟨res, evs⟩ := body
  dsimp only at htr
  have hend : ∀ e, isGwRead e = false →
      noGwAfterFirstWrite (Ev.txBegin :: (evs ++ [e])) = true := by
    intro e he
    rcases htr with ⟨k, hk⟩ | hk <;> rw [hk]
    · show noGwAfterFirstWrite (List.replicate k Ev.dbWrite ++ [e]) = true
      exact noGwAfterFirstWrite_replicate_append k e he
    · cases e <;> first | rfl | (exact absurd he (by decide))
  cases res with
  | ok db' => exact ⟨rfl, hend Ev.txCommit rfl⟩
  | error e => exact ⟨rfl, hend Ev.txRollback rfl⟩

/-- Claim C6 amended: the gateway reads of `refreshPaymentStatus` happen
inside the write transaction — never before it opens — but always before the
first local database write of that transaction. -/
theorem C6_gateway_read_inside_tx_before_writes (db : DB) (gw : Gateway)
    (srId : String) (user : Actor) (fresh : FreshIds) (now : String) :
    noGwBeforeTxBegin (refreshPaymentStatus db gw srId user fresh now).2 = true
  ∧ noGwAfterFirstWrite (refreshPaymentStatus db gw srId user fresh now).2 = true := by
  unfold refreshPaymentStatus
  dsimp only
  split
  · exact ⟨rfl, rfl⟩
  · split
    · exact ⟨rfl, rfl⟩
    · split
      · exact ⟨rfl, rfl⟩
      · split
        · exact ⟨rfl, rfl⟩
        · split
          · exact ⟨rfl, rfl⟩
          · exact refreshTxRun_trace_ok _ (refreshTxBody_trace _ _ _ _ _ _ _ _ _)

/-- The key identifying a reconciled payment row: linked to the installation
request, carrying the gateway payment id, with status COMPLETED (the
`existingPayment` lookup of the source). -/
def paymentKeyP (irId pid : String) (p : PayRow) : Bool :=
  p.installationRequestId == some irId && p.razorpayPaymentId == some pid
    && p.status == PayStatus.COMPLETED

/-- The key identifying the subscription of an installation request. -/
def subKeyP (irId : String) (s : SubRow) : Bool :=
  s.requestId == irId

theorem find?_eq_none_of_countP_eq_zero {α : Type} (q : α → Bool) (l : List α)
    (h : l.countP q = 0) : l.find? q = none := by
  rw [List.find?_eq_none]
  intro x hx
  exact List.countP_eq_zero.mp h x hx

theorem refreshFinishMain_payments (db : DB) (srId irId paymentId : String)
    (user : Actor) (now : String) (gwSub : GwSubscription) :
    (refreshFinishMain db srId irId paymentId user now gwSub).payments
      = db.payments := rfl

theorem refreshFinishMain_subscriptions (db : DB) (srId irId paymentId : String)
    (user : Actor) (now : String) (gwSub : GwSubscription) :
    (refreshFinishMain db srId irId paymentId user now gwSub).subscriptions
      = db.subscriptions := rfl

theorem refreshFinishMain_serviceRequests (db : DB) (srId irId paymentId : String)
    (user : Actor) (now : String) (gwSub : GwSubscription) :
    (refreshFinishMain db srId irId paymentId user now gwSub).serviceRequests
      = updateWhere (fun r => r.id == srId)
          (fun r => { r with status := SRStatus.COMPLETED, completedAt := some now,
                             updatedAt := now, razorpaySubscriptionId := some gwSub.id })
          db.serviceRequests := rfl

theorem mainCreateWrites_payments (db1 : DB) (srId irId paymentId : String)
    (fresh : FreshIds) (now : String) (gwSub : GwSubscription) (ir2 : IRRow)
    (prod : ProductRow) :
    (mainCreateWrites db1 srId irId paymentId fresh now gwSub ir2 prod).payments
      = updateWhere (fun p => p.id == paymentId)
          (fun p => { p with subscriptionId := some fresh.subId }) db1.payments := rfl

theorem mainCreateWrites_subscriptions (db1 : DB) (srId irId paymentId : String)
    (fresh : FreshIds) (now : String) (gwSub : GwSubscription) (ir2 : IRRow)
    (prod : ProductRow) :
    (mainCreateWrites db1 srId irId paymentId fresh now gwSub ir2 prod).subscriptions
      = db1.subscriptions
        ++ [subscriptionRowFor ir2 prod irId fresh now now
              (some (getNextMonthDate now)) (some (getNextMonthDate now)) gwSub.id] := rfl

theorem mainCreateWrites_serviceRequests (db1 : DB) (srId irId paymentId : String)
    (fresh : FreshIds) (now : String) (gwSub : GwSubscription) (ir2 : IRRow)
    (prod : ProductRow) :
    (mainCreateWrites db1 srId irId paymentId fresh now gwSub ir2 prod).serviceRequests
      = updateWhere (fun r => r.id == srId)
          (fun r => { r with subscriptionId := some fresh.subId })
          db1.serviceRequests := rfl

/-- Evaluation of `refreshPaymentStatus` once the pre-transaction validations
hold: the call is the transaction wrapper around the body. -/
theorem refreshPaymentStatus_run (db : DB) (gw : Gateway) (srId : String)
    (user : Actor) (fresh : FreshIds) (now : String) (sr : SRRow) (irId : String)
    (ir : IRRow) (gwid : String)
    (hfind : db.serviceRequests.find? (fun r => r.id == srId) = some sr)
    (hlink : sr.installationRequestId = some irId) (hirne : irId ≠ "")
    (hst : sr.status = SRStatus.PAYMENT_PENDING)
    (hfindir : db.installationRequests.find? (fun r => r.id == irId) = some ir)
    (hgw : ir.razorpaySubscriptionId = some gwid) (hgwne : gwid ≠ "") :
    refreshPaymentStatus db gw srId user fresh now
      = refreshTxRun (refreshTxBody db gw srId sr irId gwid user fresh now) := by
  have htr1 : truthy sr.installationRequestId = true := by
    rw [hlink]; simpa [truthy] using hirne
  have htr2 : truthy ir.razorpaySubscriptionId = true := by
    rw [hgw]; simpa [truthy] using hgwne
  unfold refreshPaymentStatus
  rw [hfind]
  dsimp only
  rw [if_neg (not_not_intro htr1), if_neg (fun h => h hst), hlink]
  dsimp only [Option.getD]
  rw [hfindir]
  dsimp only
  rw [if_neg (not_not_intro htr2), hgw]

/-- Evaluation of the transaction body when the gateway reports an active
subscription whose first invoice is paid. -/
theorem refreshTxBody_run (db : DB) (gw : Gateway) (srId : String) (sr : SRRow)
    (irId gwid : String) (user : Actor) (fresh : FreshIds) (now : String)
    (inv : GwInvoice)
    (hact : ((gw.subs gwid).status == "active"
        || (gw.subs gwid).status == "authenticated") = true)
    (hhead : (gw.invoicesFor sr.razorpaySubscriptionId).head? = some inv)
    (hpaid : (inv.status == "paid") = true) :
    refreshTxBody db gw srId sr irId gwid user fresh now
      = ((refreshApplyPayment db srId irId user fresh now (gw.subs gwid) inv).1,
         [Ev.gwFetchSub, Ev.gwListInvoices]
           ++ (refreshApplyPayment db srId irId user fresh now (gw.subs gwid) inv).2) := by
  unfold refreshTxBody
  dsimp only
  rw [if_pos hact, hhead]
  dsimp only
  rw [if_pos hpaid]

/-- Evaluation of the payment dispatch when no COMPLETED payment row exists
for the gateway payment. -/
theorem refreshApplyPayment_run_fresh (db : DB) (srId irId : String) (user : Actor)
    (fresh : FreshIds) (now : String) (gwSub : GwSubscription) (inv : GwInvoice)
    (hnone : db.payments.find? (fun p =>
        p.installationRequestId == some irId
          && p.razorpayPaymentId == some inv.payment_id
          && p.status == PayStatus.COMPLETED) = none) :
    refreshApplyPayment db srId irId user fresh now gwSub inv
      = refreshMainPath db srId irId none user fresh now gwSub inv := by
  unfold refreshApplyPayment
  dsimp only
  rw [hnone]

/-- After a successful first reconciliation the service request is COMPLETED,
so a repeated call fails the payment-pending precondition and writes
nothing. -/
theorem refreshSecondCallErr
    (db : DB) (gw : Gateway) (srId : String) (user user2 : Actor)
    (fresh fresh2 : FreshIds) (now now2 : String) (sr : SRRow) (irId : String)
    (ir : IRRow) (gwid : String) (inv : GwInvoice) (prod : ProductRow)
    (hfind : db.serviceRequests.find? (fun r => r.id == srId) = some sr)
    (hlink : sr.installationRequestId = some irId) (hirne : irId ≠ "") :
    (refreshPaymentStatus (refreshFinishMain
        (mainCreateWrites
          (withPayments db (db.payments
            ++ [freshPaymentRow irId fresh.paymentId inv (gw.subs gwid) now]))
          srId irId fresh.paymentId fresh now (gw.subs gwid) ir prod)
        srId irId fresh.paymentId user now (gw.subs gwid)) gw srId user2 fresh2 now2).1
      = .error (.badRequest "Installation must be in payment pending state") := by
  have hf1 := find?_updateWhere (fun r => r.id == srId)
    (fun r => ({ r with subscriptionId := some fresh.subId } : SRRow))
    ((withPayments db (db.payments
      ++ [freshPaymentRow irId fresh.paymentId inv (gw.subs gwid) now])).serviceRequests)
    (fun a h => h)
  have hf2 := find?_updateWhere (fun r => r.id == srId)
    (fun r => ({ r with status := SRStatus.COMPLETED, completedAt := some now,
                        updatedAt := now,
                        razorpaySubscriptionId := some (gw.subs gwid).id } : SRRow))
    (updateWhere (fun r => r.id == srId)
      (fun r => ({ r with subscriptionId := some fresh.subId } : SRRow))
      ((withPayments db (db.payments
        ++ [freshPaymentRow irId fresh.paymentId inv (gw.subs gwid) now])).serviceRequests))
    (fun a h => h)
  have hbase : (withPayments db (db.payments
      ++ [freshPaymentRow irId fresh.paymentId inv (gw.subs gwid) now])).serviceRequests
      = db.serviceRequests := rfl
  have hfind2 : (refreshFinishMain
      (mainCreateWrites
        (withPayments db (db.payments
          ++ [freshPaymentRow irId fresh.paymentId inv (gw.subs gwid) now]))
        srId irId fresh.paymentId fresh now (gw.subs gwid) ir prod)
      srId irId fresh.paymentId user now (gw.subs gwid)).serviceRequests.find?
        (fun r => r.id == srId)
      = some { sr with subscriptionId := some fresh.subId,
                       status := SRStatus.COMPLETED, completedAt := some now,
                       updatedAt := now,
                       razorpaySubscriptionId := some (gw.subs gwid).id } := by
    rw [refreshFinishMain_serviceRequests, mainCreateWrites_serviceRequests,
      hf2, hf1, hbase, hfind]
    rfl
  unfold refreshPaymentStatus
  rw [hfind2]
  dsimp only
  rw [hlink, if_neg (not_not_intro (show truthy (some irId) = true by
    simpa [truthy] using hirne))]
  rfl

/-- Claim C3: reconciliation is idempotent.  For an installation-linked
service request in PAYMENT_PENDING whose gateway subscription is active with
the same single paid invoice, and a store with no COMPLETED payment row for
that `(installationRequestId, gatewayPaymentId)` and no subscription for that
installation, the first `refreshPaymentStatus` call commits exactly one such
Payment row and exactly one such Subscription row, and a second call throws
(`BadRequest`, the request is no longer payment-pending) committing nothing —
so the counts stay at one. -/
theorem C3_refresh_payment_idempotent
    (db : DB) (gw : Gateway) (srId : String) (user user2 : Actor)
    (fresh fresh2 : FreshIds) (now now2 : String) (sr : SRRow) (irId : String)
    (ir : IRRow) (gwid : String) (inv : GwInvoice) (prod : ProductRow)
    (hfind : db.serviceRequests.find? (fun r => r.id == srId) = some sr)
    (hlink : sr.installationRequestId = some irId) (hirne : irId ≠ "")
    (hst : sr.status = SRStatus.PAYMENT_PENDING)
    (hfindir : db.installationRequests.find? (fun r => r.id == irId) = some ir)
    (hgw : ir.razorpaySubscriptionId = some gwid) (hgwne : gwid ≠ "")
    (hact : ((gw.subs gwid).status == "active"
        || (gw.subs gwid).status == "authenticated") = true)
    (hhead : (gw.invoicesFor sr.razorpaySubscriptionId).head? = some inv)
    (hpaid : (inv.status == "paid") = true)
    (hprod : db.products.find? (fun p => p.id == ir.productId) = some prod)
    (hpay0 : db.payments.countP (paymentKeyP irId inv.payment_id) = 0)
    (hsub0 : db.subscriptions.countP (subKeyP irId) = 0) :
    ∃ db1, (refreshPaymentStatus db gw srId user fresh now).1 = .ok db1
      ∧ db1.payments.countP (paymentKeyP irId inv.payment_id) = 1
      ∧ db1.subscriptions.countP (subKeyP irId) = 1
      ∧ (refreshPaymentStatus db1 gw srId user2 fresh2 now2).1
          = .error (.badRequest "Installation must be in payment pending state")
      ∧ refreshPaymentStatusCommitted db1 gw srId user2 fresh2 now2 = db1 := by
  have h1 := refreshPaymentStatus_run db gw srId user fresh now sr irId ir gwid
    hfind hlink hirne hst hfindir hgw hgwne
  have h2 := refreshTxBody_run db gw srId sr irId gwid user fresh now inv
    hact hhead hpaid
  have hnone : db.payments.find? (fun p =>
      p.installationRequestId == some irId
        && p.razorpayPaymentId == some inv.payment_id
        && p.status == PayStatus.COMPLETED) = none :=
    find?_eq_none_of_countP_eq_zero _ _ hpay0
  have h3 := refreshApplyPayment_run_fresh db srId irId user fresh now
    (gw.subs gwid) inv hnone
  have hdbP : (withPayments db (db.payments
      ++ [freshPaymentRow irId fresh.paymentId inv (gw.subs gwid) now])).subscriptions
      = db.subscriptions := rfl
  have hsubsnone : (withPayments db (db.payments
      ++ [freshPaymentRow irId fresh.paymentId inv (gw.subs gwid) now])).subscriptions.find?
        (fun s => s.requestId == irId) = none := by
    rw [hdbP]
    exact find?_eq_none_of_countP_eq_zero _ _ hsub0
  have h5 : refreshMainRest
      (withPayments db (db.payments
        ++ [freshPaymentRow irId fresh.paymentId inv (gw.subs gwid) now]))
      srId irId fresh.paymentId user fresh now (gw.subs gwid)
      = (.ok (refreshFinishMain
          (mainCreateWrites
            (withPayments db (db.payments
              ++ [freshPaymentRow irId fresh.paymentId inv (gw.subs gwid) now]))
            srId irId fresh.paymentId fresh now (gw.subs gwid) ir prod)
          srId irId fresh.paymentId user now (gw.subs gwid)),
        [Ev.dbWrite, Ev.dbWrite, Ev.dbWrite, Ev.dbWrite, Ev.dbWrite,
         Ev.dbWrite, Ev.dbWrite, Ev.dbWrite, Ev.dbWrite]) := by
    unfold refreshMainRest
    rw [hsubsnone]
    dsimp only
    rw [show (withPayments db (db.payments
        ++ [freshPaymentRow irId fresh.paymentId inv (gw.subs gwid) now])).installationRequests.find?
          (fun r => r.id == irId) = some ir from hfindir]
    dsimp only
    rw [show (withPayments db (db.payments
        ++ [freshPaymentRow irId fresh.paymentId inv (gw.subs gwid) now])).products.find?
          (fun p => p.id == ir.productId) = some prod from hprod]
  have happly : refreshApplyPayment db srId irId user fresh now (gw.subs gwid) inv
      = (.ok (refreshFinishMain
          (mainCreateWrites
            (withPayments db (db.payments
              ++ [freshPaymentRow irId fresh.paymentId inv (gw.subs gwid) now]))
            srId irId fresh.paymentId fresh now (gw.subs gwid) ir prod)
          srId irId fresh.paymentId user now (gw.subs gwid)),
        [Ev.dbWrite, Ev.dbWrite, Ev.dbWrite, Ev.dbWrite, Ev.dbWrite,
         Ev.dbWrite, Ev.dbWrite, Ev.dbWrite, Ev.dbWrite]) := by
    rw [h3]
    exact h5
  refine ⟨refreshFinishMain
      (mainCreateWrites
        (withPayments db (db.payments
          ++ [freshPaymentRow irId fresh.paymentId inv (gw.subs gwid) now]))
        srId irId fresh.paymentId fresh now (gw.subs gwid) ir prod)
      srId irId fresh.paymentId user now (gw.subs gwid), ?_, ?_, ?_, ?_, ?_⟩
  · rw [h1, h2, happly]
    rfl
  · have hcount := countP_updateWhere (paymentKeyP irId inv.payment_id)
      (fun p => p.id == fresh.paymentId)
      (fun p => { p with subscriptionId := some fresh.subId })
      ((withPayments db (db.payments
        ++ [freshPaymentRow irId fresh.paymentId inv (gw.subs gwid) now])).payments)
      (fun p => rfl)
    rw [refreshFinishMain_payments, mainCreateWrites_payments, hcount]
    show (db.payments
      ++ [freshPaymentRow irId fresh.paymentId inv (gw.subs gwid) now]).countP
        (paymentKeyP irId inv.payment_id) = 1
    rw [List.countP_append, hpay0]
    simp [paymentKeyP, freshPaymentRow, List.countP_cons]
  · rw [refreshFinishMain_subscriptions, mainCreateWrites_subscriptions]
    show (db.subscriptions ++ [subscriptionRowFor ir prod irId fresh now now
      (some (getNextMonthDate now)) (some (getNextMonthDate now)) (gw.subs gwid).id]).countP
        (subKeyP irId) = 1
    rw [List.countP_append, hsub0]
    simp [subKeyP, subscriptionRowFor, List.countP_cons]
  · -- the second call finds the request already COMPLETED and throws
    exact refreshSecondCallErr db gw srId user user2 fresh fresh2 now now2 sr irId ir
      gwid inv prod hfind hlink hirne
  · -- the second call commits nothing
    unfold refreshPaymentStatusCommitted
    rw [refreshSecondCallErr db gw srId user user2 fresh fresh2 now now2 sr irId ir
      gwid inv prod hfind hlink hirne]

def invDemo : GwInvoice := { status := "paid", payment_id := "payX", amount := 50000 }

theorem C3_refresh_payment_idempotent_witness :
    ∃ db1, (refreshPaymentStatus dbRefresh gwDemo "srqP" actorAdmin freshDemo "t0").1
        = .ok db1
      ∧ db1.payments.countP (paymentKeyP "irP" "payX") = 1
      ∧ db1.subscriptions.countP (subKeyP "irP") = 1
      ∧ (refreshPaymentStatus db1 gwDemo "srqP" actorAdmin freshDemo "t1").1
          = .error (.badRequest "Installation must be in payment pending state")
      ∧ refreshPaymentStatusCommitted db1 gwDemo "srqP" actorAdmin freshDemo "t1" = db1 :=
  C3_refresh_payment_idempotent dbRefresh gwDemo "srqP" actorAdmin actorAdmin
    freshDemo freshDemo "t0" "t1" srqPayPending "irP" irPayPending "gwsub1" invDemo
    prodDemo (by decide) (by decide) (by decide) (by decide) (by decide) (by decide)
    (by decide) rfl rfl rfl (by decide) rfl rfl

end AquaHome
